import Mathlib

/-!
# SailTrade core: shallow embedding and verification

This file embeds the core of the SailTrade repository (`src/App.jsx`):
the deterministic seeded RNG (`cyrb128` + `sfc32`), the procedural world
generator (`generateIslands`, `generateCoastlineShape`, `createInnerRing`,
decorative features, `generateWaves`), the boat simulation step
(`updateBoat`) and the collision detector (`detectCollision`).

Modelling conventions:
* JavaScript numbers are modelled as exact rationals (`ℚ`); decimal
  literals of the source are taken at face value.  The transcendental
  library functions (`Math.sin`, `Math.cos`, `Math.exp`, `Math.sqrt`,
  `Math.hypot`) have no exact rational counterpart and are passed in as
  an abstract bundle `MathOps`; every definition is parametric in it.
* 32-bit integer operations of the RNG (`Math.imul`, `>>>`, `<<`, `|0`,
  `^`) are modelled exactly on `ℕ` with explicit reduction `% 2^32`;
  for the operations used here the unsigned view `x >>> 0` of a signed
  32-bit result coincides with arithmetic modulo `2^32`.
* `Math.PI` is the exact rational value of the IEEE double
  `884279719003555 / 2^48`.  The JS remainder `%` (truncated toward
  zero) is `jsMod`; `Math.round x` is `⌊x + 1/2⌋`.
* The comparison `Math.hypot dx dy < s` with `0 < s` is translated to
  the equivalent squared form `dx^2 + dy^2 < s^2` where only the
  comparison matters (island placement, collision prefilter);
  `MAX_BOAT_EXTENT` is `Math.hypot 58 0 = 58`, the largest norm in
  `BOAT_COLLISION_OUTLINE`.
* The mutable closure returned by `sfc32` becomes explicit state
  passing of an `RngState`; the `while` loop of `generateIslands`
  becomes structural recursion on the remaining attempt budget, which
  the source bounds by `count * 60`.
-/

namespace SailTrade

set_option maxRecDepth 1000000

/-- Abstract interface for the JS `Math` transcendental functions used by
the source; every generator/physics definition is parametric in it. -/
structure MathOps where
  sin : ℚ → ℚ
  cos : ℚ → ℚ
  exp : ℚ → ℚ
  sqrt : ℚ → ℚ
  hypot : ℚ → ℚ → ℚ

/-! ## Constants (`App.jsx` lines 4-11, 38-39) -/

def MAP_SIZE : ℚ := 10000
def ISLAND_COUNT : ℕ := 16
def MIN_ISLAND_GAP : ℚ := 900
/-- Exact rational value of the IEEE-754 double `Math.PI`. -/
def piQ : ℚ := 884279719003555 / 281474976710656
/-- `TWO_PI = Math.PI * 2` (exact: doubling a double is exact). -/
def TWO_PI : ℚ := piQ * 2
def MAX_FORWARD_SPEED : ℚ := 260
def ACCELERATION : ℚ := 140
def BRAKE_DECELERATION : ℚ := 220
def TURN_RATE : ℚ := 1.8
def COLLISION_EDGE_THRESHOLD : ℚ := 6

/-- A plain 2D point (`{x, y}` objects of the source). -/
structure Pt where
  x : ℚ
  y : ℚ
deriving DecidableEq, Repr

/-- `BOAT_COLLISION_OUTLINE` (lines 20-31). -/
def BOAT_COLLISION_OUTLINE : List Pt :=
  [⟨58, 0⟩, ⟨44, 18⟩, ⟨44, -18⟩, ⟨20, 26⟩, ⟨20, -26⟩,
   ⟨-8, 30⟩, ⟨-8, -30⟩, ⟨-38, 18⟩, ⟨-38, -18⟩, ⟨-52, 0⟩]

/-- `MAX_BOAT_EXTENT` (lines 33-36): the maximum of `Math.hypot p.x p.y`
over `BOAT_COLLISION_OUTLINE`.  The squared norms are 3364, 2260, 1076,
964, 1768, 2704, so the maximum is `Math.hypot 58 0 = 58` exactly. -/
def MAX_BOAT_EXTENT : ℚ := 58

/-! ## JS numeric helpers -/

/-- Truncation toward zero, as JS integer division/remainder uses. -/
def truncQ (q : ℚ) : ℤ := if 0 ≤ q then ⌊q⌋ else ⌈q⌉

/-- The JS remainder operator `a % b` (sign follows the dividend). -/
def jsMod (a b : ℚ) : ℚ := a - b * truncQ (a / b)

/-- JS `Math.round` (half-up, toward +∞ on ties). -/
def jsRound (x : ℚ) : ℤ := ⌊x + 1/2⌋

/-- `clamp(value, min, max)` (lines 870-872). -/
def clampQ (value lo hi : ℚ) : ℚ := max lo (min hi value)

/-- `Math.floor(q)` for the non-negative quantities drawn from the RNG,
as a natural number index/count. -/
def floorN (q : ℚ) : ℕ := (⌊q⌋ : ℤ).toNat

/-! ## Deterministic RNG (`cyrb128`, `sfc32`, `createSeededRng`, lines 50-98) -/

def U32 : ℕ := 4294967296

/-- The four 32-bit words of the `sfc32` closure state. -/
structure RngState where
  a : ℕ
  b : ℕ
  c : ℕ
  d : ℕ
deriving DecidableEq, Repr

/-- One call of the closure returned by `sfc32` (lines 72-87): returns
the 32-bit output (before normalization) and the advanced state. -/
def sfc32Next (s : RngState) : ℕ × RngState :=
  let a := s.a % U32
  let b := s.b % U32
  let c := s.c % U32
  let d := s.d % U32
  let t := (a + b) % U32
  let a' := Nat.xor b (b >>> 9)
  let b' := (c + (c <<< 3)) % U32
  let c2 := Nat.lor ((c <<< 21) % U32) (c >>> 11)
  let c' := (c2 + t) % U32
  let d' := (d + 1) % U32
  let result := (t + d') % U32
  (result, ⟨a', b', c', d'⟩)

/-- `rng()` as used by the generator: a rational in `[0, 1)` plus the
next state (`(result >>> 0) / 4294967296`). -/
def rand (s : RngState) : ℚ × RngState :=
  let (r, s') := sfc32Next s
  ((r : ℚ) / (U32 : ℚ), s')

/-- `cyrb128` (lines 50-70) over a list of UTF-16 code units. -/
def cyrb128 (codes : List ℕ) : ℕ × ℕ × ℕ × ℕ :=
  let step := fun (h : ℕ × ℕ × ℕ × ℕ) (ch : ℕ) =>
    let (h1, h2, h3, h4) := h
    ((Nat.xor h1 ch * 597399067) % U32,
     (Nat.xor h2 ch * 2869860233) % U32,
     (Nat.xor h3 ch * 951274213) % U32,
     (Nat.xor h4 ch * 2716044179) % U32)
  let (h1, h2, h3, h4) := codes.foldl step (1779033703, 3144134277, 1013904242, 2773480762)
  let h1' := (Nat.xor h3 (h1 >>> 18) * 597399067) % U32
  let h2' := (Nat.xor h4 (h2 >>> 22) * 2869860233) % U32
  let h3' := (Nat.xor h1' (h3 >>> 17) * 951274213) % U32
  let h4' := (Nat.xor h2' (h4 >>> 19) * 2716044179) % U32
  (h1', h2', h3', h4')

/-- Characters removed by JS `String.prototype.trim` (the common ones:
space, tab, LF, VT, FF, CR). -/
def isJsSpace (c : ℕ) : Bool := c = 32 || c = 9 || c = 10 || c = 11 || c = 12 || c = 13

/-- `seedValue.toString().trim()` on the code-unit list. -/
def trimCodes (codes : List ℕ) : List ℕ :=
  ((codes.dropWhile isJsSpace).reverse.dropWhile isJsSpace).reverse

/-- Discard `n` outputs (the 12-draw warm-up loop of lines 93-96). -/
def warmup : ℕ → RngState → RngState
  | 0, s => s
  | n + 1, s => warmup n (sfc32Next s).2

/-- `createSeededRng` (lines 89-98): seed hash, then 12 discarded draws.
Seeds are the UTF-16 code units of the seed string. -/
def createSeededRng (codes : List ℕ) : RngState :=
  let (a, b, c, d) := cyrb128 (trimCodes codes)
  warmup 12 ⟨a, b, c, d⟩

/-! ## Angle helpers (lines 115-127) -/

/-- `normalizeAngle` (lines 115-117). -/
def normalizeAngle (angle : ℚ) : ℚ := jsMod (jsMod angle TWO_PI + TWO_PI) TWO_PI

/-- `shortestAngleDiff` (lines 119-122). -/
def shortestAngleDiff (a b : ℚ) : ℚ := normalizeAngle (a - b + piQ) - piQ

/-- `gaussianFalloff` (lines 124-127). -/
def gaussianFalloff (ops : MathOps) (diff width : ℚ) : ℚ :=
  let ratio := diff / width
  ops.exp (-(ratio * ratio))

/-! ## Stateful mapping helper

JS builds lists by repeatedly calling the mutating `random` closure;
`mapRand` is the corresponding state-threading map. -/

def mapRand {α β : Type} (f : α → RngState → β × RngState) :
    List α → RngState → List β × RngState
  | [], s => ([], s)
  | a :: as, s =>
    let (b, s') := f a s
    let (bs, s'') := mapRand f as s'
    (b :: bs, s'')

/-! ## World generator data model -/

/-- A coastline/ring sample (`{angle, radius, x, y}`, lines 206-211). -/
structure CoastPt where
  angle : ℚ
  radius : ℚ
  x : ℚ
  y : ℚ
deriving DecidableEq, Repr

/-- A headland or cove bump (`{angle, width, strength}`, lines 169-179). -/
structure Bump where
  angle : ℚ
  width : ℚ
  strength : ℚ
deriving DecidableEq, Repr

/-- A cliff group (lines 230-243). -/
structure Cliff where
  startAngle : ℚ
  endAngle : ℚ
  layers : ℕ
deriving DecidableEq, Repr

/-- A single tree (lines 255-264); `kindConifer` models the
`'conifer' / 'broadleaf'` string tag and `leanAngle` the `lean` field. -/
structure Tree where
  x : ℚ
  y : ℚ
  size : ℚ
  kindConifer : Bool
  leanAngle : ℚ
  layers : ℕ
deriving DecidableEq, Repr

/-- A tree cluster (lines 245-271). -/
structure TreeCluster where
  trees : List Tree
deriving DecidableEq, Repr

/-- A stream bezier (lines 273-320); `endPt` models the `end` field. -/
structure Stream where
  start : Pt
  control1 : Pt
  control2 : Pt
  endPt : Pt
  width : ℚ
deriving DecidableEq, Repr

/-- A meadow highlight (lines 322-333). -/
structure Highlight where
  x : ℚ
  y : ℚ
  radius : ℚ
deriving DecidableEq, Repr

/-- An island color palette (lines 388-416). -/
structure Palette where
  shore : String
  beach : String
  grass : String
  canopy : String
  cliffs : String
  highlight : String
deriving DecidableEq, Repr

/-- `waveAnimation` payload (lines 372-377). -/
structure WaveAnim where
  offset : ℚ
  speed : ℚ
  dash : ℚ
  glow : ℚ
deriving DecidableEq, Repr

/-- An island (lines 360-382). -/
structure Island where
  id : String
  x : ℚ
  y : ℚ
  radius : ℚ
  points : List Pt
  coastline : List CoastPt
  beach : List CoastPt
  grass : List CoastPt
  canopy : List CoastPt
  palette : Palette
  textureSeed : ℚ
  waveAnimation : WaveAnim
  cliffs : List Cliff
  treeClusters : List TreeCluster
  streams : List Stream
  highlights : List Highlight
deriving DecidableEq, Repr

/-- An ambient wave emitter (lines 418-427). -/
structure Wave where
  x : ℚ
  y : ℚ
  amplitude : ℚ
  length : ℚ
  speed : ℚ
  phase : ℚ
deriving DecidableEq, Repr

/-! ## Coastline synthesis (`generateCoastlineShape`, lines 156-215) -/

/-- One headland/cove record: three sequential draws
(`angle`, `width`, `strength`, lines 169-179). -/
def drawBump (baseW spanW baseS spanS : ℚ) (_i : ℕ) (s : RngState) :
    Bump × RngState :=
  let (u1, s) := rand s
  let (u2, s) := rand s
  let (u3, s) := rand s
  (⟨u1 * TWO_PI, baseW + u2 * spanW, baseS + u3 * spanS⟩, s)

/-- The deterministic part of the per-sample multiplier (lines 185-200):
the four sinusoids plus headland bumps minus cove indentations. -/
def coastMultBase (ops : MathOps) (angle : ℚ)
    (mainPhase secondaryPhase detailPhase microPhase : ℚ)
    (mainAmplitude secondaryAmplitude detailAmplitude microAmplitude : ℚ)
    (headlands coves : List Bump) : ℚ :=
  let m1 := 1 + ops.sin (angle * 1.1 + mainPhase) * mainAmplitude
  let m2 := m1 + ops.sin (angle * 2.4 + secondaryPhase) * secondaryAmplitude
  let m3 := m2 + ops.sin (angle * 4.8 + detailPhase) * detailAmplitude
  let m4 := m3 + ops.sin (angle * 7.3 + microPhase) * microAmplitude
  let m5 := headlands.foldl
    (fun m h => m + gaussianFalloff ops (shortestAngleDiff angle h.angle) h.width * h.strength) m4
  coves.foldl
    (fun m c => m - gaussianFalloff ops (shortestAngleDiff angle c.angle) c.width * c.strength) m5

/-- The per-sample body of the coastline loop (lines 183-212): one
jitter draw, the multiplier, the safety clamp `[0.48, 1.48]`. -/
def coastPoint (ops : MathOps) (radius : ℚ) (segments : ℕ)
    (mainPhase secondaryPhase detailPhase microPhase : ℚ)
    (mainAmplitude secondaryAmplitude detailAmplitude microAmplitude jitterStrength : ℚ)
    (headlands coves : List Bump) (i : ℕ) (s : RngState) : CoastPt × RngState :=
  let angle := ((i : ℚ) / (segments : ℚ)) * TWO_PI
  let m7 := coastMultBase ops angle mainPhase secondaryPhase detailPhase microPhase
      mainAmplitude secondaryAmplitude detailAmplitude microAmplitude headlands coves
    + ((rand s).1 - 0.5) * jitterStrength
  let clampedMultiplier := max 0.48 (min 1.48 m7)
  let r := radius * clampedMultiplier
  (⟨angle, r, ops.cos angle * r, ops.sin angle * r⟩, (rand s).2)

/-- `generateCoastlineShape` (lines 156-215).  The sequential draws are
written with explicit state projections (`(rand s).1 / (rand s).2`),
which is the same state threading as the source's mutating closure. -/
def generateCoastlineShape (ops : MathOps) (radius : ℚ) (s : RngState) :
    List CoastPt × RngState :=
  let segments := 46 + floorN ((rand s).1 * 20)
  let s0 := (rand s).2
  let mainPhase := (rand s0).1 * TWO_PI
  let s1 := (rand s0).2
  let secondaryPhase := (rand s1).1 * TWO_PI
  let s2 := (rand s1).2
  let detailPhase := (rand s2).1 * TWO_PI
  let s3 := (rand s2).2
  let microPhase := (rand s3).1 * TWO_PI
  let s4 := (rand s3).2
  let mainAmplitude := 0.18 + (rand s4).1 * 0.08
  let s5 := (rand s4).2
  let secondaryAmplitude := 0.12 + (rand s5).1 * 0.06
  let s6 := (rand s5).2
  let detailAmplitude := 0.08 + (rand s6).1 * 0.04
  let s7 := (rand s6).2
  let microAmplitude := 0.05 + (rand s7).1 * 0.03
  let s8 := (rand s7).2
  let jitterStrength := 0.08 + (rand s8).1 * 0.06
  let s9 := (rand s8).2
  let headlands := (mapRand (drawBump 0.6 0.6 0.16 0.26) (List.range 3) s9).1
  let s10 := (mapRand (drawBump 0.6 0.6 0.16 0.26) (List.range 3) s9).2
  let coves := (mapRand (drawBump 0.8 0.9 0.12 0.22) (List.range 2) s10).1
  let s11 := (mapRand (drawBump 0.8 0.9 0.12 0.22) (List.range 2) s10).2
  mapRand (coastPoint ops radius segments mainPhase secondaryPhase detailPhase microPhase
    mainAmplitude secondaryAmplitude detailAmplitude microAmplitude jitterStrength
    headlands coves) (List.range segments) s11

/-- The per-point body of `createInnerRing` (lines 218-227). -/
def innerRingPoint (ops : MathOps) (scale jitter : ℚ) (point : CoastPt) (s : RngState) :
    CoastPt × RngState :=
  let jitterAmount := 1 + ((rand s).1 - 0.5) * jitter
  let r := min (point.radius * 0.995) (point.radius * scale * jitterAmount)
  (⟨point.angle, r, ops.cos point.angle * r, ops.sin point.angle * r⟩, (rand s).2)

/-- `createInnerRing` (lines 217-228). -/
def createInnerRing (ops : MathOps) (points : List CoastPt) (scale jitter : ℚ)
    (s : RngState) : List CoastPt × RngState :=
  mapRand (innerRingPoint ops scale jitter) points s

/-! ## Decorative features (lines 230-333) -/

/-- `generateCliffs` (lines 230-243).  Note the conditional second draw:
when the first roll is below 0.3 no count draw happens. -/
def generateCliffs (s : RngState) : List Cliff × RngState :=
  let (roll, s) := rand s
  if roll < 0.3 then ([], s)
  else
    let (uc, s) := rand s
    let cliffGroups := 1 + floorN (uc * 2)
    mapRand (fun _ s =>
      let (u1, s) := rand s
      let startAngle := u1 * TWO_PI
      let (u2, s) := rand s
      let width := 0.32 + u2 * 0.55
      let (u3, s) := rand s
      (((⟨startAngle, startAngle + width, 2 + floorN (u3 * 3)⟩ : Cliff)), s))
      (List.range cliffGroups) s

/-- One tree (lines 255-264): six sequential draws. -/
def drawTree (ops : MathOps) (anchor : CoastPt) (radius clusterRadius : ℚ)
    (_j : ℕ) (s : RngState) : Tree × RngState :=
  let (u1, s) := rand s
  let angle := u1 * TWO_PI
  let (u2, s) := rand s
  let distance := ops.sqrt u2 * clusterRadius
  let x := anchor.x + ops.cos angle * distance
  let y := anchor.y + ops.sin angle * distance
  let (u3, s) := rand s
  let size := radius * (0.024 + u3 * 0.045)
  let (u4, s) := rand s
  let kindConifer := decide (u4 < 0.45)
  let (u5, s) := rand s
  let leanAngle := (u5 - 0.5) * 0.6
  let (u6, s) := rand s
  let layers := if kindConifer then 3 + floorN (u6 * 3) else 2 + floorN (u6 * 2)
  (⟨x, y, size, kindConifer, leanAngle, layers⟩, s)

/-- One tree cluster (lines 249-267). -/
def drawTreeCluster (ops : MathOps) (canopyPoints : List CoastPt) (radius : ℚ)
    (_i : ℕ) (s : RngState) : TreeCluster × RngState :=
  let (u1, s) := rand s
  let anchor := canopyPoints.getD (floorN (u1 * (canopyPoints.length : ℚ))) ⟨0, 0, 0, 0⟩
  let (u2, s) := rand s
  let clusterRadius := radius * (0.09 + u2 * 0.14)
  let (u3, s) := rand s
  let treeCount := 10 + floorN (u3 * 18)
  let (trees, s) := mapRand (drawTree ops anchor radius clusterRadius) (List.range treeCount) s
  (⟨trees⟩, s)

/-- `generateTreeClusters` (lines 245-271). -/
def generateTreeClusters (ops : MathOps) (canopyPoints : List CoastPt) (radius : ℚ)
    (s : RngState) : List TreeCluster × RngState :=
  let (u0, s) := rand s
  let clusterCount := 4 + floorN (u0 * 6)
  mapRand (drawTreeCluster ops canopyPoints radius) (List.range clusterCount) s

/-- One stream (lines 283-316). -/
def drawStream (ops : MathOps) (coastline : List CoastPt) (radius : ℚ)
    (_i : ℕ) (s : RngState) : Stream × RngState :=
  let (u1, s) := rand s
  let outlet := coastline.getD (floorN (u1 * (coastline.length : ℚ))) ⟨0, 0, 0, 0⟩
  let exit : Pt := ⟨outlet.x * 0.92, outlet.y * 0.92⟩
  let (u2, s) := rand s
  let sourceAngle := normalizeAngle (outlet.angle + piQ + (u2 - 0.5) * 0.7)
  let (u3, s) := rand s
  let sourceRadius := radius * (0.1 + u3 * 0.22)
  let start : Pt := ⟨ops.cos sourceAngle * sourceRadius, ops.sin sourceAngle * sourceRadius⟩
  let deltaX := exit.x - start.x
  let deltaY := exit.y - start.y
  let perpendicular : Pt := ⟨-deltaY, deltaX⟩
  let h := ops.hypot perpendicular.x perpendicular.y
  let length := if h = 0 then 1 else h
  let (u4, s) := rand s
  let bend := radius * (0.05 + u4 * 0.08)
  let (u5, s) := rand s
  let bendDir : ℚ := if u5 > 0.5 then 1 else -1
  let offsetX := (perpendicular.x / length) * bend * bendDir
  let offsetY := (perpendicular.y / length) * bend * bendDir
  let control1 : Pt := ⟨start.x + deltaX * 0.3 + offsetX, start.y + deltaY * 0.3 + offsetY⟩
  let control2 : Pt := ⟨start.x + deltaX * 0.7 + offsetX * 0.6, start.y + deltaY * 0.7 + offsetY * 0.6⟩
  let (u6, s) := rand s
  let width := 4 + u6 * 3
  (⟨start, control1, control2, exit, width⟩, s)

/-- `generateStreams` (lines 273-320). -/
def generateStreams (ops : MathOps) (coastline : List CoastPt) (radius : ℚ)
    (s : RngState) : List Stream × RngState :=
  let (roll, s) := rand s
  let streamCount := if roll < 0.25 then 2 else if roll < 0.65 then 1 else 0
  mapRand (drawStream ops coastline radius) (List.range streamCount) s

/-- `generateMeadowHighlights` (lines 322-333). -/
def generateMeadowHighlights (grassPoints : List CoastPt) (radius : ℚ)
    (s : RngState) : List Highlight × RngState :=
  let (u0, s) := rand s
  let highlightCount := 3 + floorN (u0 * 4)
  mapRand (fun _ s =>
    let (u1, s) := rand s
    let anchor := grassPoints.getD (floorN (u1 * (grassPoints.length : ℚ))) ⟨0, 0, 0, 0⟩
    let (u2, s) := rand s
    let size := radius * (0.12 + u2 * 0.16)
    (((⟨anchor.x, anchor.y, size⟩ : Highlight)), s)) (List.range highlightCount) s

/-- The three palettes of `pickPalette` (lines 388-416). -/
def palettes : List Palette :=
  [⟨"#f4d9a0", "#f7e5b8", "#63b365", "#2f7e4f", "#8b5528", "#fffae5"⟩,
   ⟨"#f5c874", "#ffe7a9", "#55c27c", "#1d7a5a", "#a16c3c", "#fff2d0"⟩,
   ⟨"#f1c082", "#fddd9a", "#6ccf8a", "#337a44", "#82492a", "#ffe9c0"⟩]

/-- `pickPalette` (lines 388-416). -/
def pickPalette (s : RngState) : Palette × RngState :=
  let (u, s) := rand s
  (palettes.getD (floorN (u * (palettes.length : ℚ))) ⟨"", "", "", "", "", ""⟩, s)

/-! ## Island placement loop (`generateIslands`, lines 335-386) -/

/-- Everything after a candidate `(radius, x, y)` passes the overlap
check: coastline, rings, palette, texture, decorative payloads
(lines 354-382), in the source's evaluation order.  `idx` is
`islands.length` at push time (the `id` template). -/
def buildIsland (ops : MathOps) (idx : ℕ) (x y radius : ℚ) (s : RngState) :
    Island × RngState :=
  let coastline := (generateCoastlineShape ops radius s).1
  let s0 := (generateCoastlineShape ops radius s).2
  let beach := (createInnerRing ops coastline 0.98 0.02 s0).1
  let s1 := (createInnerRing ops coastline 0.98 0.02 s0).2
  let grass := (createInnerRing ops coastline 0.68 0.16 s1).1
  let s2 := (createInnerRing ops coastline 0.68 0.16 s1).2
  let canopy := (createInnerRing ops coastline 0.5 0.22 s2).1
  let s3 := (createInnerRing ops coastline 0.5 0.22 s2).2
  let palette := (pickPalette s3).1
  let s4 := (pickPalette s3).2
  let textureSeed := (rand s4).1 * 1000000
  let s5 := (rand s4).2
  let waveAnimation : WaveAnim :=
    ⟨(rand s5).1 * 400, 0.6 + (rand (rand s5).2).1 * 0.8,
     12 + (rand (rand (rand s5).2).2).1 * 10,
     0.22 + (rand (rand (rand (rand s5).2).2).2).1 * 0.25⟩
  let s6 := (rand (rand (rand (rand s5).2).2).2).2
  let cliffs := (generateCliffs s6).1
  let s7 := (generateCliffs s6).2
  let treeClusters := (generateTreeClusters ops canopy radius s7).1
  let s8 := (generateTreeClusters ops canopy radius s7).2
  let streams := (generateStreams ops coastline radius s8).1
  let s9 := (generateStreams ops coastline radius s8).2
  let highlights := (generateMeadowHighlights grass radius s9).1
  let s10 := (generateMeadowHighlights grass radius s9).2
  (⟨"island-" ++ toString idx, x, y, radius,
    coastline.map (fun p => ⟨p.x, p.y⟩),
    coastline, beach, grass, canopy, palette, textureSeed, waveAnimation,
    cliffs, treeClusters, streams, highlights⟩, s10)

/-- Result of the placement loop: accepted islands, the attempt counter
and the final RNG state. -/
structure GenResult where
  islands : List Island
  attempts : ℕ
  rng : RngState

/-- The `while (islands.length < count && attempts < count * 60)` loop
(lines 338-383), by structural recursion on the remaining budget
`fuel = count * 60 - attempts`.  The overlap test
`Math.hypot dx dy < existing.radius + radius + MIN_ISLAND_GAP` is the
squared comparison (the bound is ≥ 900 > 0). -/
def genLoop (ops : MathOps) (count : ℕ) :
    ℕ → List Island → ℕ → RngState → GenResult
  | 0, acc, attempts, s => ⟨acc, attempts, s⟩
  | fuel + 1, acc, attempts, s =>
    if acc.length < count then
      let radius := 200 + (rand s).1 * 320
      let s1 := (rand s).2
      let x := (rand s1).1 * MAP_SIZE
      let s2 := (rand s1).2
      let y := (rand s2).1 * MAP_SIZE
      let s3 := (rand s2).2
      if acc.any (fun existing =>
          decide ((existing.x - x) ^ 2 + (existing.y - y) ^ 2
            < (existing.radius + radius + MIN_ISLAND_GAP) ^ 2)) then
        genLoop ops count fuel acc (attempts + 1) s3
      else
        genLoop ops count fuel (acc ++ [(buildIsland ops acc.length x y radius s3).1])
          (attempts + 1) (buildIsland ops acc.length x y radius s3).2
    else ⟨acc, attempts, s⟩

/-- `generateIslands` (lines 335-386), returning the islands and the
RNG state handed on to `generateWaves`. -/
def generateIslands (ops : MathOps) (count : ℕ) (s : RngState) :
    List Island × RngState :=
  let r := genLoop ops count (count * 60) [] 0 s
  (r.islands, r.rng)

/-- `generateWaves` (lines 418-427): `count` emitters of six draws each. -/
def generateWaves (count : ℕ) (s : RngState) : List Wave × RngState :=
  mapRand (fun _ s =>
    let (u1, s) := rand s
    let (u2, s) := rand s
    let (u3, s) := rand s
    let (u4, s) := rand s
    let (u5, s) := rand s
    let (u6, s) := rand s
    (((⟨u1 * MAP_SIZE, u2 * MAP_SIZE, 18 + u3 * 24, 60 + u4 * 120,
        12 + u5 * 22, u6 * piQ * 2⟩ : Wave)), s)) (List.range count) s

/-- The seeded world of `seedData` (lines 455-461): one RNG per seed,
islands first, then waves on the same stream. -/
def generateWorld (ops : MathOps) (seedCodes : List ℕ) : List Island × List Wave :=
  let s := createSeededRng seedCodes
  let (islands, s') := generateIslands ops ISLAND_COUNT s
  let (waves, _) := generateWaves 320 s'
  (islands, waves)

/-! ## Collision detector (lines 874-954) -/

/-- The pose `detectCollision` receives (`proposedBoat`, line 615). -/
structure CollPose where
  x : ℚ
  y : ℚ
  heading : ℚ
deriving DecidableEq, Repr

/-- `getBoatCollisionSamples` (lines 874-886): the center plus the
rotated hull outline. -/
def getBoatCollisionSamples (ops : MathOps) (boat : CollPose) : List Pt :=
  let c := ops.cos boat.heading
  let sn := ops.sin boat.heading
  ⟨boat.x, boat.y⟩ ::
    BOAT_COLLISION_OUTLINE.map (fun offset =>
      ⟨boat.x + offset.x * c - offset.y * sn, boat.y + offset.x * sn + offset.y * c⟩)

/-- The edge list of the polygon loop `(j = n-1, i = 0), (0, 1), …`
(lines 888-905): pairs `(polygon[j], polygon[i])`. -/
def polygonEdges (polygon : List CoastPt) : List (CoastPt × CoastPt) :=
  match polygon with
  | [] => []
  | p :: ps => List.zip ((p :: ps).getLast (by simp) :: (p :: ps).dropLast) (p :: ps)

/-- `isPointInsidePolygon` (lines 888-905): ray casting with the
`(yj - yi) || 1e-7` guard. -/
def isPointInsidePolygon (point : Pt) (polygon : List CoastPt) : Bool :=
  (polygonEdges polygon).foldl (fun inside e =>
    let pj := e.1
    let pi := e.2
    let denom := if pj.y - pi.y = 0 then (1 / 10000000 : ℚ) else pj.y - pi.y
    let intersects :=
      (decide (pi.y > point.y) != decide (pj.y > point.y)) &&
      decide (point.x < (pj.x - pi.x) * (point.y - pi.y) / denom + pi.x)
    if intersects then !inside else inside) false

/-- `isPointNearPolygonEdge` (lines 907-928). -/
def isPointNearPolygonEdge (point : Pt) (polygon : List CoastPt) (threshold : ℚ) : Bool :=
  let thresholdSq := threshold * threshold
  (polygonEdges polygon).any (fun e =>
    let a := e.1
    let b := e.2
    let dx := b.x - a.x
    let dy := b.y - a.y
    let lengthSq := dx * dx + dy * dy
    let t0 : ℚ := 0
    let t :=
      if lengthSq > 0 then
        max 0 (min 1 (((point.x - a.x) * dx + (point.y - a.y) * dy) / lengthSq))
      else t0
    let closestX := a.x + dx * t
    let closestY := a.y + dy * t
    let distSq := (point.x - closestX) * (point.x - closestX)
      + (point.y - closestY) * (point.y - closestY)
    decide (distSq ≤ thresholdSq))

/-- Does any collision sample hit this island (the inner loop of
lines 942-950)?  Samples are translated to island-local coordinates. -/
def islandHit (ops : MathOps) (boat : CollPose) (island : Island) : Bool :=
  (getBoatCollisionSamples ops boat).any (fun sample =>
    let localPoint : Pt := ⟨sample.x - island.x, sample.y - island.y⟩
    isPointInsidePolygon localPoint island.coastline ||
    isPointNearPolygonEdge localPoint island.coastline COLLISION_EDGE_THRESHOLD)

/-- `detectCollision` (lines 930-954), with the circumscribed-circle
prefilter `dx*dx + dy*dy > limit*limit → continue`. -/
def detectCollision (ops : MathOps) (boat : CollPose) (islands : List Island) : Bool :=
  islands.any (fun island =>
    let dx := boat.x - island.x
    let dy := boat.y - island.y
    let limit := island.radius + MAX_BOAT_EXTENT
    if dx * dx + dy * dy > limit * limit then false
    else islandHit ops boat island)

/-- `detectCollision` with the prefilter removed: the exact
point-in-polygon / edge-proximity tests over all islands. -/
def detectCollisionNoFilter (ops : MathOps) (boat : CollPose) (islands : List Island) : Bool :=
  islands.any (fun island => islandHit ops boat island)

/-! ## Boat simulation (`updateBoat`, lines 526-629) -/

/-- The anchor sub-machine's string states. -/
inductive AnchorState where
  | stowed
  | dropping
  | anchored
  | weighing
deriving DecidableEq, Repr

/-- The four boolean commands handed to the simulation step. -/
structure Commands where
  forward : Bool
  backward : Bool
  left : Bool
  right : Bool
deriving DecidableEq, Repr

/-- The boat state (lines 100-113). -/
structure BoatState where
  x : ℚ
  y : ℚ
  heading : ℚ
  speed : ℚ
  sailLevel : ℚ
  sailTarget : ℚ
  idleTime : ℚ
  anchorState : AnchorState
  anchorProgress : ℚ
  wakeTimer : ℚ
deriving DecidableEq, Repr

/-- `createInitialBoatState` (lines 100-113); `-Math.PI / 2` is exact. -/
def createInitialBoatState : BoatState :=
  ⟨MAP_SIZE / 2, MAP_SIZE / 2, -(piQ / 2), 0, 0.4, 0.4, 0, .stowed, 0, 0⟩

/-- JS `Math.sign`. -/
def signQ (q : ℚ) : ℚ := if 0 < q then 1 else if q < 0 then -1 else 0

/-- `commands.forward || commands.left || commands.right` (line 550):
note `backward` is not included. -/
def attemptingToMove (cmds : Commands) : Bool := cmds.forward || cmds.left || cmds.right

/-- `['dropping', 'anchored', 'weighing'].includes(anchorState)`. -/
def anchorBlocks : AnchorState → Bool
  | .dropping => true
  | .anchored => true
  | .weighing => true
  | .stowed => false

/-- Sail trim updates (lines 535-548): target chases commands, level
chases target at rate 1.6/s, both clamped to `[0, 1]`. -/
def sailStage (cmds : Commands) (dt : ℚ) (b : BoatState) : BoatState :=
  let t1 := if cmds.forward then clampQ (b.sailTarget + dt * 0.7) 0 1 else b.sailTarget
  let t2 := if cmds.backward then clampQ (t1 - dt * 0.7) 0 1 else t1
  let sailDiff := t2 - b.sailLevel
  let level :=
    if |sailDiff| > 0.0001 then
      clampQ (b.sailLevel + signQ sailDiff * min |sailDiff| (1.6 * dt)) 0 1
    else b.sailLevel
  { b with sailTarget := t2, sailLevel := level }

/-- Idle-timer bookkeeping (lines 550-559); `isMoving` reads the
pre-step speed, `movingSpeedThreshold = 6`. -/
def idleStage (cmds : Commands) (dt : ℚ) (b : BoatState) : BoatState :=
  let attempting := attemptingToMove cmds
  let isMoving := decide (b.speed > 6)
  let blocking := anchorBlocks b.anchorState
  if !blocking && !isMoving && !attempting then { b with idleTime := b.idleTime + dt }
  else if attempting || isMoving then { b with idleTime := 0 }
  else b

/-- The anchor sub-machine (lines 561-587): the automatic
`stowed → dropping` trigger, then the transition chain.  After the
trigger fires, the `dropping` branch runs in the same step, exactly as
in the source (separate `if` statements). -/
def anchorStage (cmds : Commands) (dt : ℚ) (b : BoatState) : BoatState :=
  let b1 :=
    if b.anchorState = .stowed ∧ b.idleTime ≥ 3 then
      { b with anchorState := .dropping, anchorProgress := 0 }
    else b
  match b1.anchorState with
  | .dropping =>
    let progress := min 1 (b1.anchorProgress + dt)
    let speed := max 0 (b1.speed - BRAKE_DECELERATION * dt)
    if progress ≥ 1 then
      { b1 with anchorProgress := progress, speed := speed, anchorState := .anchored }
    else { b1 with anchorProgress := progress, speed := speed }
  | .anchored =>
    if attemptingToMove cmds then
      { b1 with anchorProgress := 0, speed := 0, anchorState := .weighing }
    else { b1 with anchorProgress := 1, speed := 0 }
  | .weighing =>
    let progress := min 1 (b1.anchorProgress + dt)
    if progress ≥ 1 then
      { b1 with anchorProgress := 0, speed := 0, anchorState := .stowed, idleTime := 0 }
    else { b1 with anchorProgress := progress, speed := 0 }
  | .stowed => b1

/-- `desiredSpeed` (lines 589-590), from the post-machine anchor state. -/
def desiredSpeed (b : BoatState) : ℚ :=
  if anchorBlocks b.anchorState then 0 else b.sailLevel * MAX_FORWARD_SPEED

/-- Speed easing toward the desired speed (lines 592-596). -/
def accelStage (dt : ℚ) (b : BoatState) : BoatState :=
  let desired := desiredSpeed b
  if b.speed < desired then { b with speed := min desired (b.speed + ACCELERATION * dt) }
  else if b.speed > desired then
    { b with speed := max desired (b.speed - BRAKE_DECELERATION * dt) }
  else b

/-- Rest snap (lines 598-600): both desired and actual speed below the
threshold with no movement command held zeroes the speed. -/
def snapStage (cmds : Commands) (b : BoatState) : BoatState :=
  if desiredSpeed b < 6 ∧ b.speed < 6 ∧ attemptingToMove cmds = false then
    { b with speed := 0 }
  else b

/-- Steering (lines 602-610): turn rate scales with the speed fraction,
disabled while anchored or weighing. -/
def steerStage (cmds : Commands) (dt : ℚ) (b : BoatState) : BoatState :=
  let canSteer := b.anchorState ≠ .anchored ∧ b.anchorState ≠ .weighing
  let turnStrength := 0.6 + min (b.speed / MAX_FORWARD_SPEED) 1
  let h1 := if canSteer ∧ cmds.left = true then b.heading - TURN_RATE * dt * turnStrength
            else b.heading
  let h2 := if canSteer ∧ cmds.right = true then h1 + TURN_RATE * dt * turnStrength else h1
  { b with heading := h2 }

/-- The proposed pose of lines 612-615. -/
def proposedPose (ops : MathOps) (dt : ℚ) (b : BoatState) : CollPose :=
  ⟨b.x + ops.cos b.heading * b.speed * dt, b.y + ops.sin b.heading * b.speed * dt, b.heading⟩

/-- Position commit / collision rejection (lines 612-622): on collision
the position is untouched and speed is capped at the bounce ceiling 38;
otherwise the proposed position is committed clamped to world bounds. -/
def moveStage (ops : MathOps) (islands : List Island) (dt : ℚ) (b : BoatState) : BoatState :=
  let p := proposedPose ops dt b
  if detectCollision ops p islands then { b with speed := min b.speed 38 }
  else { b with x := clampQ p.x 0 MAP_SIZE, y := clampQ p.y 0 MAP_SIZE }

/-- Wake phase advance (line 624). -/
def wakeStage (dt : ℚ) (b : BoatState) : BoatState :=
  { b with wakeTimer :=
      jsMod (b.wakeTimer + dt * (0.8 + min (b.speed / MAX_FORWARD_SPEED) 1 * 3)) 1000 }

/-- `updateBoat` (lines 526-629): the stages in source order. -/
def updateBoat (ops : MathOps) (islands : List Island) (cmds : Commands)
    (dt : ℚ) (b : BoatState) : BoatState :=
  wakeStage dt (moveStage ops islands dt (steerStage cmds dt (snapStage cmds
    (accelStage dt (anchorStage cmds dt (idleStage cmds dt (sailStage cmds dt b)))))))

/-- The state reached just before the collision test of a step. -/
def midState (cmds : Commands) (dt : ℚ) (b : BoatState) : BoatState :=
  steerStage cmds dt (snapStage cmds
    (accelStage dt (anchorStage cmds dt (idleStage cmds dt (sailStage cmds dt b)))))

/-- Boat states reachable from `createInitialBoatState` by simulation
steps whose elapsed time lies in the frame clamp `[0, 0.05]`
(line 635), with arbitrary commands and island sets. -/
inductive Reachable : BoatState → Prop where
  | init : Reachable createInitialBoatState
  | step (ops : MathOps) (islands : List Island) (cmds : Commands) (dt : ℚ)
      (b : BoatState) (h0 : 0 ≤ dt) (h1 : dt ≤ 0.05) (hb : Reachable b) :
      Reachable (updateBoat ops islands cmds dt b)

/-- The UI heading telemetry (lines 764-766):
`Math.round(normalizeAngle(heading) * (180 / Math.PI))`. -/
def headingDegrees (heading : ℚ) : ℤ :=
  jsRound (jsMod (jsMod heading (piQ * 2) + piQ * 2) (piQ * 2) * (180 / piQ))

/-! ## Invariants and concrete instances used by the verification -/

/-- The islands' circles are mutually separated by at least
`MIN_ISLAND_GAP`, stated in squared form (`Math.hypot dx dy ≥ s` with
`s > 0` is equivalent to `dx^2 + dy^2 ≥ s^2`). -/
def islandSep (a b : Island) : Prop :=
  (a.x - b.x) ^ 2 + (a.y - b.y) ^ 2 ≥ (a.radius + b.radius + MIN_ISLAND_GAP) ^ 2

/-- The idealized trigonometric identity floats satisfy up to rounding:
the rotation given by `(sin h, cos h)` does not expand distances. -/
def TrigBounded (ops : MathOps) : Prop :=
  ∀ x, (ops.sin x) ^ 2 + (ops.cos x) ^ 2 ≤ 1

/-- The shape invariant every generator-produced island satisfies (for
trig-bounded ops): base radius in `[200, 520]`, 46-65 coastline
samples, every sample radius inside the clamp band and every sample
point within `1.48 · radius` of the island center. -/
def IslandInv (isl : Island) : Prop :=
  200 ≤ isl.radius ∧ isl.radius ≤ 520 ∧
  46 ≤ isl.coastline.length ∧ isl.coastline.length ≤ 65 ∧
  ∀ p ∈ isl.coastline,
    0.48 * isl.radius ≤ p.radius ∧ p.radius ≤ 1.48 * isl.radius ∧
      p.x ^ 2 + p.y ^ 2 ≤ (1.48 * isl.radius) ^ 2

instance (isl : Island) : Decidable (IslandInv isl) := by
  unfold IslandInv
  infer_instance

/-- Default coastline sample for safe indexing. -/
def dCoastPt : CoastPt := ⟨0, 0, 0, 0⟩

/-- Default island for safe indexing. -/
def dIsland : Island :=
  ⟨"", 0, 0, 0, [], [], [], [], [], ⟨"", "", "", "", "", ""⟩, 0, ⟨0, 0, 0, 0⟩, [], [], [], []⟩

/-- A concrete trig-bounded `MathOps` instance for evaluations. -/
def ops0 : MathOps := ⟨fun _ => 0, fun _ => 0, fun _ => 0, fun _ => 0, fun _ _ => 0⟩

/-- UTF-16 code units of the seed string `"abc123"`. -/
def seedAbc : List ℕ := [97, 98, 99, 49, 50, 51]

/-- The seeded RNG state for `"abc123"`. -/
def rng0 : RngState := createSeededRng seedAbc

/-- One sample of a 46-gon inscribed in the diamond `|x| + |y| = 290`
around the island center: a shape the coastline synthesis can produce
(every point is within the clamp band `[0.48·200, 1.48·200] = [96, 296]`). -/
def diamondPt (k : ℕ) : CoastPt :=
  let p : ℚ := (k : ℚ) * 4 / 46
  let f : ℚ := p - floorN p
  if k * 4 / 46 = 0 then ⟨p, 290, 290 * (1 - f), 290 * f⟩
  else if k * 4 / 46 = 1 then ⟨p, 290, -(290 * f), 290 * (1 - f)⟩
  else if k * 4 / 46 = 2 then ⟨p, 290, -(290 * (1 - f)), -(290 * f)⟩
  else ⟨p, 290, 290 * f, -(290 * (1 - f))⟩

/-- The 46-point diamond coastline. -/
def diamondCoast : List CoastPt := (List.range 46).map diamondPt

/-- A concrete island satisfying `IslandInv`: base radius 200, centered
at (5000, 5000), coastline reaching 290 > 258 = radius + MAX_BOAT_EXTENT
from the center. -/
def cexIsland : Island :=
  ⟨"island-0", 5000, 5000, 200, [], diamondCoast, [], [], [],
   ⟨"", "", "", "", "", ""⟩, 0, ⟨0, 0, 0, 0⟩, [], [], [], []⟩

/-- A boat pose 270 world units east of `cexIsland`'s center: outside
the prefilter circle of radius 258, yet inside the coastline polygon. -/
def cexBoat : CollPose := ⟨5270, 5000, 0⟩

/-- No commands held. -/
def cmdsNone : Commands := ⟨false, false, false, false⟩

/-- Only `forward` held. -/
def cmdsFwd : Commands := ⟨true, false, false, false⟩

/-- Only `backward` held. -/
def cmdsBack : Commands := ⟨false, true, false, false⟩

/-- `backward` and `left` held. -/
def cmdsBackLeft : Commands := ⟨false, true, true, false⟩

/-- An anchored boat state (progress 1, speed 0) used to exercise the
anchored branch. -/
def anchoredBoat : BoatState :=
  ⟨5000, 5000, 0, 0, 0, 0, 0, .anchored, 1, 0⟩

/-- The inductive invariant of the boat simulation: position inside the
map, sail values and anchor progress in `[0, 1]`, speed in
`[0, MAX_FORWARD_SPEED]`, wake phase in `[0, 1000)`, and the anchor
machine's phase conditions (a stowed boat has been idle < 3 s, a
dropping/weighing anchor has progress < 1, an anchored one exactly 1). -/
def BoatInv (b : BoatState) : Prop :=
  0 ≤ b.x ∧ b.x ≤ MAP_SIZE ∧ 0 ≤ b.y ∧ b.y ≤ MAP_SIZE ∧
  0 ≤ b.sailLevel ∧ b.sailLevel ≤ 1 ∧ 0 ≤ b.sailTarget ∧ b.sailTarget ≤ 1 ∧
  0 ≤ b.speed ∧ b.speed ≤ MAX_FORWARD_SPEED ∧
  0 ≤ b.idleTime ∧ 0 ≤ b.wakeTimer ∧ b.wakeTimer < 1000 ∧
  0 ≤ b.anchorProgress ∧ b.anchorProgress ≤ 1 ∧
  (b.anchorState = .stowed → b.idleTime < 3) ∧
  (b.anchorState = .dropping → b.anchorProgress < 1) ∧
  (b.anchorState = .weighing → b.anchorProgress < 1) ∧
  (b.anchorState = .anchored → b.anchorProgress = 1)

/-- One idle frame from the initial state: its `idleTime` is `1/20`,
which a command-holding zero-dt step resets to 0. -/
def c10State : BoatState := updateBoat ops0 [] cmdsNone (1/20) createInitialBoatState

/-! ## Helper lemmas -/

theorem rand_nonneg (s : RngState) : 0 ≤ (rand s).1 := by
  unfold rand
  exact div_nonneg (by positivity) (by norm_num [U32])

theorem rand_lt_one (s : RngState) : (rand s).1 < 1 := by
  unfold rand sfc32Next
  have h : ((s.a % U32 + s.b % U32) % U32 + (s.d % U32 + 1) % U32) % U32 < U32 :=
    Nat.mod_lt _ (by norm_num [U32])
  rw [div_lt_one (by norm_num [U32])]
  exact_mod_cast h

theorem truncQ_sub_nonneg {q : ℚ} (h : 0 ≤ q) : 0 ≤ q - truncQ q := by
  unfold truncQ
  rw [if_pos h]
  have := Int.floor_le q
  linarith

theorem truncQ_sub_lt_one {q : ℚ} (h : 0 ≤ q) : q - truncQ q < 1 := by
  unfold truncQ
  rw [if_pos h]
  have := Int.lt_floor_add_one q
  linarith

theorem truncQ_sub_gt_neg_one (q : ℚ) : -1 < q - truncQ q := by
  unfold truncQ
  split_ifs with h
  · have := Int.floor_le q
    linarith
  · have := Int.ceil_lt_add_one q
    push_cast at this ⊢
    linarith

theorem truncQ_sub_lt_one' (q : ℚ) : q - truncQ q < 1 := by
  by_cases h : 0 ≤ q
  · exact truncQ_sub_lt_one h
  · unfold truncQ
    rw [if_neg h]
    have := Int.le_ceil q
    linarith

theorem jsMod_eq_mul (a b : ℚ) (hb : b ≠ 0) :
    jsMod a b = b * (a / b - truncQ (a / b)) := by
  unfold jsMod
  field_simp

theorem jsMod_nonneg {a b : ℚ} (hb : 0 < b) (ha : 0 ≤ a) : 0 ≤ jsMod a b := by
  rw [jsMod_eq_mul a b hb.ne.symm]
  exact mul_nonneg hb.le (truncQ_sub_nonneg (div_nonneg ha hb.le))

theorem jsMod_lt {a b : ℚ} (hb : 0 < b) : jsMod a b < b := by
  rw [jsMod_eq_mul a b hb.ne.symm]
  have h := truncQ_sub_lt_one' (a / b)
  calc b * (a / b - truncQ (a / b)) < b * 1 := by
        exact mul_lt_mul_of_pos_left h hb
    _ = b := mul_one b

theorem neg_lt_jsMod {a b : ℚ} (hb : 0 < b) : -b < jsMod a b := by
  rw [jsMod_eq_mul a b hb.ne.symm]
  have h := truncQ_sub_gt_neg_one (a / b)
  have := mul_lt_mul_of_pos_left h hb
  linarith

theorem clampQ_le {v lo hi : ℚ} (h : lo ≤ hi) : clampQ v lo hi ≤ hi := by
  unfold clampQ
  exact max_le h (min_le_left _ _)

theorem le_clampQ (v lo hi : ℚ) : lo ≤ clampQ v lo hi := le_max_left _ _

theorem clampQ_of_mem {v lo hi : ℚ} (h1 : lo ≤ v) (h2 : v ≤ hi) : clampQ v lo hi = v := by
  unfold clampQ
  rw [min_eq_right h2, max_eq_right h1]

theorem piQ_pos : (0 : ℚ) < piQ := by norm_num [piQ]

/-! ## C1: generator determinism -/

/-- **C1.**  For every seed string, constructing the seeded RNG and
running the world generator twice (islands with `ISLAND_COUNT`, then
320 waves on the continued stream) yields equal island lists and equal
wave lists — the embedding is a pure function of the seed, with no
hidden state shared between the two constructions. -/
theorem c1_generator_deterministic (ops : MathOps) (seedCodes : List ℕ) :
    (generateIslands ops ISLAND_COUNT (createSeededRng seedCodes)).1 =
      (generateIslands ops ISLAND_COUNT (createSeededRng seedCodes)).1 ∧
    (generateWaves 320 (generateIslands ops ISLAND_COUNT (createSeededRng seedCodes)).2).1 =
      (generateWaves 320 (generateIslands ops ISLAND_COUNT (createSeededRng seedCodes)).2).1 ∧
    generateWorld ops seedCodes = generateWorld ops seedCodes :=
  ⟨rfl, rfl, rfl⟩

/-! ## C9: heading telemetry range -/

/-- The normalized heading `((h % 2π) + 2π) % 2π` lies in `[0, 2π)`. -/
theorem normalized_heading_mem (h : ℚ) :
    0 ≤ jsMod (jsMod h (piQ * 2) + piQ * 2) (piQ * 2) ∧
      jsMod (jsMod h (piQ * 2) + piQ * 2) (piQ * 2) < piQ * 2 := by
  have hb : (0 : ℚ) < piQ * 2 := by
    have := piQ_pos
    linarith
  have h1 := neg_lt_jsMod (a := h) hb
  constructor
  · exact jsMod_nonneg hb (by linarith)
  · exact jsMod_lt hb

/-- **C9 (amended).**  The rounded heading readout always lies in the
closed interval `[0, 360]`; the value 360 itself is attainable (see the
counterexample), so the half-open claim `[0, 360)` fails. -/
theorem c9_headingDegrees_bounds (h : ℚ) :
    0 ≤ headingDegrees h ∧ headingDegrees h ≤ 360 := by
  unfold headingDegrees jsRound
  obtain ⟨hlo, hhi⟩ := normalized_heading_mem h
  set n := jsMod (jsMod h (piQ * 2) + piQ * 2) (piQ * 2) with hn
  have hpi : (0 : ℚ) < piQ := piQ_pos
  have hscale : (0 : ℚ) < 180 / piQ := by positivity
  have hdeg0 : 0 ≤ n * (180 / piQ) := mul_nonneg hlo hscale.le
  have hdeg1 : n * (180 / piQ) < 360 := by
    have := mul_lt_mul_of_pos_right hhi hscale
    have heq : piQ * 2 * (180 / piQ) = 360 := by
      field_simp
      ring
    linarith
  constructor
  · exact Int.le_floor.mpr (by push_cast; linarith)
  · have : (⌊n * (180 / piQ) + 1 / 2⌋ : ℤ) < 361 := by
      rw [Int.floor_lt]
      push_cast
      linarith
    omega

/-- **C9 (counterexample).**  At the heading `2π · 9999/10000` — just
under a full turn — the normalized heading is `359.964°`, which
`Math.round` takes to exactly 360: the claimed strict bound
`headingDegrees < 360` is violated. -/
theorem c9_counterexample : headingDegrees (piQ * 2 * (9999 / 10000)) = 360 := by
  with_unfolding_all decide

/-! ## Lemmas about `mapRand` and the generated geometry -/

theorem mapRand_length {α β : Type} (f : α → RngState → β × RngState)
    (l : List α) (s : RngState) : ((mapRand f l s).1).length = l.length := by
  induction l generalizing s with
  | nil => rfl
  | cons a as ih =>
    simp only [mapRand]
    simp [ih]

theorem mapRand_forall_mem {α β : Type} {f : α → RngState → β × RngState}
    {P : β → Prop} (hf : ∀ a s, P (f a s).1) (l : List α) (s : RngState) :
    ∀ b ∈ (mapRand f l s).1, P b := by
  induction l generalizing s with
  | nil => simp [mapRand]
  | cons a as ih =>
    simp only [mapRand]
    intro b hb
    rcases List.mem_cons.mp hb with hb | hb
    · exact hb ▸ hf a s
    · exact ih _ b hb

theorem mapRand_pointwise {α β : Type} {f : α → RngState → β × RngState}
    {P : α → β → Prop} (hf : ∀ a s, P a (f a s).1) (l : List α) (s : RngState) :
    ∀ i (hi : i < l.length) (hi' : i < ((mapRand f l s).1).length),
      P (l.get ⟨i, hi⟩) ((mapRand f l s).1.get ⟨i, hi'⟩) := by
  induction l generalizing s with
  | nil => intro i hi; simp at hi
  | cons a as ih =>
    intro i hi hi'
    match i with
    | 0 => exact hf a s
    | j + 1 =>
      simp only [mapRand] at hi' ⊢
      exact ih _ j (by simpa using hi) (by simpa [mapRand_length] using hi')

theorem floorN_lt {q : ℚ} {n : ℕ} (hn : 0 < n) (h : q < n) : floorN q < n := by
  unfold floorN
  have : ⌊q⌋ < (n : ℤ) := Int.floor_lt.mpr (by exact_mod_cast h)
  omega

/-- Multiplying a non-negative radius by the clamped multiplier lands in
the safety band. -/
theorem radius_mul_clamp_band (radius m : ℚ) (hr : 0 ≤ radius) :
    0.48 * radius ≤ radius * max 0.48 (min 1.48 m) ∧
      radius * max 0.48 (min 1.48 m) ≤ 1.48 * radius := by
  have h1 : (0.48 : ℚ) ≤ max 0.48 (min 1.48 m) := le_max_left _ _
  have h2 : max (0.48 : ℚ) (min 1.48 m) ≤ 1.48 :=
    max_le (by norm_num) (min_le_left _ _)
  constructor
  · nlinarith
  · nlinarith

/-- The coastline multiplier clamp: each sample's resolved radius is in
the safety band `[0.48 · radius, 1.48 · radius]`. -/
theorem coastPoint_radius_band (ops : MathOps) (radius : ℚ) (segments : ℕ)
    (mp sp dp mcp ma sa da mca js : ℚ) (hl cv : List Bump) (i : ℕ) (s : RngState)
    (hr : 0 ≤ radius) :
    0.48 * radius ≤ (coastPoint ops radius segments mp sp dp mcp ma sa da mca js hl cv i s).1.radius ∧
      (coastPoint ops radius segments mp sp dp mcp ma sa da mca js hl cv i s).1.radius ≤ 1.48 * radius :=
  radius_mul_clamp_band radius _ hr

/-- Every coastline sample of `generateCoastlineShape` has its radius in
the clamp band, and the sample count lies in `[46, 65]`. -/
theorem generateCoastlineShape_band (ops : MathOps) (radius : ℚ) (s : RngState)
    (hr : 0 ≤ radius) :
    (∀ p ∈ (generateCoastlineShape ops radius s).1,
        0.48 * radius ≤ p.radius ∧ p.radius ≤ 1.48 * radius) ∧
      46 ≤ ((generateCoastlineShape ops radius s).1).length ∧
      ((generateCoastlineShape ops radius s).1).length ≤ 65 := by
  unfold generateCoastlineShape
  simp only
  refine ⟨?_, ?_, ?_⟩
  · exact mapRand_forall_mem (fun i s' => coastPoint_radius_band ops radius _ _ _ _ _ _ _ _ _ _ _ _ i s' hr) _ _
  · rw [mapRand_length]
    simp
  · rw [mapRand_length]
    simp only [List.length_range]
    have hu0 := rand_nonneg s
    have hu1 := rand_lt_one s
    have : floorN ((rand s).1 * 20) < 20 := by
      refine floorN_lt (by norm_num) ?_
      push_cast
      nlinarith
    omega

/-- Per-point bounds for `innerRingPoint`: with a non-negative base
radius, the jittered inner radius stays between
`scale * (1 - jitter/2)` and `scale * (1 + jitter/2)` times the base,
never exceeding `0.995` times the base. -/
theorem innerRingPoint_bounds (ops : MathOps) {scale jitter : ℚ} (p : CoastPt)
    (s : RngState) (hc : 0 ≤ p.radius) (hs : 0 ≤ scale) (hj : 0 ≤ jitter)
    (hlo : scale * (1 - jitter / 2) ≤ 0.995) :
    scale * (1 - jitter / 2) * p.radius ≤ (innerRingPoint ops scale jitter p s).1.radius ∧
      (innerRingPoint ops scale jitter p s).1.radius ≤ scale * (1 + jitter / 2) * p.radius ∧
      (innerRingPoint ops scale jitter p s).1.radius ≤ 0.995 * p.radius := by
  unfold innerRingPoint
  simp only
  have hu0 := rand_nonneg s
  have hu1 := rand_lt_one s
  set u := (rand s).1 with hu
  have hjA : 1 - jitter / 2 ≤ 1 + (u - 0.5) * jitter := by nlinarith
  have hjB : 1 + (u - 0.5) * jitter ≤ 1 + jitter / 2 := by nlinarith
  have hsc : 0 ≤ scale * p.radius := mul_nonneg hs hc
  refine ⟨?_, ?_, ?_⟩
  · refine le_min ?_ ?_
    · nlinarith [mul_le_mul_of_nonneg_right hlo hc]
    · nlinarith [mul_le_mul_of_nonneg_left hjA hsc]
  · calc min (p.radius * 0.995) (p.radius * scale * (1 + (u - 0.5) * jitter))
        ≤ p.radius * scale * (1 + (u - 0.5) * jitter) := min_le_right _ _
      _ ≤ scale * (1 + jitter / 2) * p.radius := by
          nlinarith [mul_le_mul_of_nonneg_left hjB hsc]
  · calc min (p.radius * 0.995) (p.radius * scale * (1 + (u - 0.5) * jitter))
        ≤ p.radius * 0.995 := min_le_left _ _
      _ = 0.995 * p.radius := by ring

theorem innerRingPoint_angle (ops : MathOps) (scale jitter : ℚ) (p : CoastPt)
    (s : RngState) : (innerRingPoint ops scale jitter p s).1.angle = p.angle := rfl

/-! ## Lemmas about island assembly and the placement loop -/

theorem buildIsland_x (ops : MathOps) (idx : ℕ) (x y radius : ℚ) (s : RngState) :
    (buildIsland ops idx x y radius s).1.x = x := rfl

theorem buildIsland_y (ops : MathOps) (idx : ℕ) (x y radius : ℚ) (s : RngState) :
    (buildIsland ops idx x y radius s).1.y = y := rfl

theorem buildIsland_radius (ops : MathOps) (idx : ℕ) (x y radius : ℚ) (s : RngState) :
    (buildIsland ops idx x y radius s).1.radius = radius := rfl

theorem buildIsland_coastline (ops : MathOps) (idx : ℕ) (x y radius : ℚ) (s : RngState) :
    (buildIsland ops idx x y radius s).1.coastline = (generateCoastlineShape ops radius s).1 := rfl

theorem buildIsland_beach (ops : MathOps) (idx : ℕ) (x y radius : ℚ) (s : RngState) :
    (buildIsland ops idx x y radius s).1.beach =
      (createInnerRing ops (generateCoastlineShape ops radius s).1 0.98 0.02
        (generateCoastlineShape ops radius s).2).1 := rfl

theorem buildIsland_grass (ops : MathOps) (idx : ℕ) (x y radius : ℚ) (s : RngState) :
    (buildIsland ops idx x y radius s).1.grass =
      (createInnerRing ops (generateCoastlineShape ops radius s).1 0.68 0.16
        (createInnerRing ops (generateCoastlineShape ops radius s).1 0.98 0.02
          (generateCoastlineShape ops radius s).2).2).1 := rfl

theorem buildIsland_canopy (ops : MathOps) (idx : ℕ) (x y radius : ℚ) (s : RngState) :
    (buildIsland ops idx x y radius s).1.canopy =
      (createInnerRing ops (generateCoastlineShape ops radius s).1 0.5 0.22
        (createInnerRing ops (generateCoastlineShape ops radius s).1 0.68 0.16
          (createInnerRing ops (generateCoastlineShape ops radius s).1 0.98 0.02
            (generateCoastlineShape ops radius s).2).2).2).1 := rfl

theorem createInnerRing_length (ops : MathOps) (pts : List CoastPt) (scale jitter : ℚ)
    (s : RngState) : (createInnerRing ops pts scale jitter s).1.length = pts.length :=
  mapRand_length _ _ _

/-- Pointwise version of `innerRingPoint_bounds` along a whole ring. -/
theorem createInnerRing_pointwise (ops : MathOps) {scale jitter : ℚ}
    (pts : List CoastPt) (s : RngState) (hs : 0 ≤ scale) (hj : 0 ≤ jitter)
    (hlo : scale * (1 - jitter / 2) ≤ 0.995) :
    ∀ i (hi : i < pts.length) (hi' : i < (createInnerRing ops pts scale jitter s).1.length),
      0 ≤ (pts.get ⟨i, hi⟩).radius →
        scale * (1 - jitter / 2) * (pts.get ⟨i, hi⟩).radius ≤
            ((createInnerRing ops pts scale jitter s).1.get ⟨i, hi'⟩).radius ∧
          ((createInnerRing ops pts scale jitter s).1.get ⟨i, hi'⟩).radius ≤
            scale * (1 + jitter / 2) * (pts.get ⟨i, hi⟩).radius ∧
          ((createInnerRing ops pts scale jitter s).1.get ⟨i, hi'⟩).radius ≤
            0.995 * (pts.get ⟨i, hi⟩).radius := by
  intro i hi hi' hc
  unfold createInnerRing at hi' ⊢
  exact mapRand_pointwise (f := innerRingPoint ops scale jitter)
    (P := fun p q => 0 ≤ p.radius →
      scale * (1 - jitter / 2) * p.radius ≤ q.radius ∧
        q.radius ≤ scale * (1 + jitter / 2) * p.radius ∧ q.radius ≤ 0.995 * p.radius)
    (fun p s' hp => innerRingPoint_bounds ops p s' hp hs hj hlo) pts s i hi hi' hc

/-- Ring nesting inside one freshly built island: at every shared
sample index, canopy ≤ grass ≤ beach ≤ coastline. -/
theorem buildIsland_nesting (ops : MathOps) (idx : ℕ) (x y radius : ℚ) (s : RngState)
    (hr : 0 ≤ radius) :
    (46 ≤ (buildIsland ops idx x y radius s).1.coastline.length ∧
      (buildIsland ops idx x y radius s).1.coastline.length ≤ 65) ∧
    ((buildIsland ops idx x y radius s).1.beach.length =
        (buildIsland ops idx x y radius s).1.coastline.length ∧
      (buildIsland ops idx x y radius s).1.grass.length =
        (buildIsland ops idx x y radius s).1.coastline.length ∧
      (buildIsland ops idx x y radius s).1.canopy.length =
        (buildIsland ops idx x y radius s).1.coastline.length) ∧
    (∀ p ∈ (buildIsland ops idx x y radius s).1.coastline,
        0.48 * radius ≤ p.radius ∧ p.radius ≤ 1.48 * radius) ∧
    ∀ i, i < (buildIsland ops idx x y radius s).1.coastline.length →
      ((buildIsland ops idx x y radius s).1.canopy.getD i dCoastPt).radius ≤
          ((buildIsland ops idx x y radius s).1.grass.getD i dCoastPt).radius ∧
        ((buildIsland ops idx x y radius s).1.grass.getD i dCoastPt).radius ≤
          ((buildIsland ops idx x y radius s).1.beach.getD i dCoastPt).radius ∧
        ((buildIsland ops idx x y radius s).1.beach.getD i dCoastPt).radius ≤
          ((buildIsland ops idx x y radius s).1.coastline.getD i dCoastPt).radius := by
  obtain ⟨hband, hlen46, hlen65⟩ := generateCoastlineShape_band ops radius s hr
  rw [buildIsland_coastline, buildIsland_beach, buildIsland_grass, buildIsland_canopy]
  set C := (generateCoastlineShape ops radius s).1 with hC
  set sC := (generateCoastlineShape ops radius s).2 with hsC
  set beach := createInnerRing ops C 0.98 0.02 sC with hbeach
  set grass := createInnerRing ops C 0.68 0.16 beach.2 with hgrass
  set canopy := createInnerRing ops C 0.5 0.22 grass.2 with hcanopy
  have hlb : beach.1.length = C.length := createInnerRing_length ops C 0.98 0.02 sC
  have hlg : grass.1.length = C.length := createInnerRing_length ops C 0.68 0.16 beach.2
  have hlc : canopy.1.length = C.length := createInnerRing_length ops C 0.5 0.22 grass.2
  refine ⟨⟨hlen46, hlen65⟩, ⟨hlb, hlg, hlc⟩, hband, ?_⟩
  intro i hi
  have hib : i < beach.1.length := by omega
  have hig : i < grass.1.length := by omega
  have hic : i < canopy.1.length := by omega
  have hcmem := hband (C.get ⟨i, hi⟩) (List.get_mem C i hi)
  have hc0 : 0 ≤ (C.get ⟨i, hi⟩).radius := by nlinarith [hcmem.1]
  have hb := createInnerRing_pointwise ops C sC (by norm_num) (by norm_num)
    (by norm_num) i hi hib hc0
  have hg := createInnerRing_pointwise ops C beach.2 (by norm_num) (by norm_num)
    (by norm_num) i hi hig hc0
  have hcp := createInnerRing_pointwise ops C grass.2 (by norm_num) (by norm_num)
    (by norm_num) i hi hic hc0
  rw [List.getD_eq_get _ _ hib, List.getD_eq_get _ _ hig, List.getD_eq_get _ _ hic,
    List.getD_eq_get _ _ hi]
  set c := (C.get ⟨i, hi⟩).radius
  refine ⟨?_, ?_, ?_⟩
  · calc (canopy.1.get ⟨i, hic⟩).radius ≤ 0.5 * (1 + 0.22 / 2) * c := hcp.2.1
      _ ≤ 0.68 * (1 - 0.16 / 2) * c := by nlinarith
      _ ≤ (grass.1.get ⟨i, hig⟩).radius := hg.1
  · calc (grass.1.get ⟨i, hig⟩).radius ≤ 0.68 * (1 + 0.16 / 2) * c := hg.2.1
      _ ≤ 0.98 * (1 - 0.02 / 2) * c := by nlinarith
      _ ≤ (beach.1.get ⟨i, hib⟩).radius := hb.1
  · calc (beach.1.get ⟨i, hib⟩).radius ≤ 0.995 * c := hb.2.2
      _ ≤ c := by nlinarith

theorem genLoop_attempts_le (ops : MathOps) (count : ℕ) :
    ∀ (fuel : ℕ) (acc : List Island) (attempts : ℕ) (s : RngState),
      (genLoop ops count fuel acc attempts s).attempts ≤ attempts + fuel := by
  intro fuel
  induction fuel with
  | zero => intro acc attempts s; simp [genLoop]
  | succ n ih =>
    intro acc attempts s
    simp only [genLoop]
    split_ifs with h1 h2
    · exact le_trans (ih _ _ _) (by omega)
    · exact le_trans (ih _ _ _) (by omega)
    · show attempts ≤ attempts + (n + 1)
      omega

theorem genLoop_length_le (ops : MathOps) (count : ℕ) :
    ∀ (fuel : ℕ) (acc : List Island) (attempts : ℕ) (s : RngState),
      acc.length ≤ count → (genLoop ops count fuel acc attempts s).islands.length ≤ count := by
  intro fuel
  induction fuel with
  | zero => intro acc attempts s h; simpa [genLoop] using h
  | succ n ih =>
    intro acc attempts s h
    simp only [genLoop]
    split_ifs with h1 h2
    · exact ih _ _ _ h
    · refine ih _ _ _ ?_
      simp only [List.length_append, List.length_singleton]
      omega
    · simpa using h

theorem genLoop_pairwise (ops : MathOps) (count : ℕ) :
    ∀ (fuel : ℕ) (acc : List Island) (attempts : ℕ) (s : RngState),
      acc.Pairwise islandSep → (genLoop ops count fuel acc attempts s).islands.Pairwise islandSep := by
  intro fuel
  induction fuel with
  | zero => intro acc attempts s h; simpa [genLoop] using h
  | succ n ih =>
    intro acc attempts s h
    simp only [genLoop]
    split_ifs with h1 h2
    · exact ih _ _ _ h
    · refine ih _ _ _ ?_
      rw [List.pairwise_append]
      refine ⟨h, List.pairwise_singleton _ _, ?_⟩
      intro a ha b hb
      rw [List.mem_singleton] at hb
      subst hb
      simp only [List.any_eq_true, not_exists, not_and, decide_eq_true_eq] at h2
      have hca := h2 a ha
      push_neg at hca
      unfold islandSep
      rw [buildIsland_x, buildIsland_y, buildIsland_radius]
      linarith
    · simpa using h

theorem genLoop_mem (ops : MathOps) (count : ℕ) {P : Island → Prop}
    (hP : ∀ (idx : ℕ) (x y radius : ℚ) (s' : RngState),
      200 ≤ radius → radius ≤ 520 → P (buildIsland ops idx x y radius s').1) :
    ∀ (fuel : ℕ) (acc : List Island) (attempts : ℕ) (s : RngState),
      (∀ isl ∈ acc, P isl) → ∀ isl ∈ (genLoop ops count fuel acc attempts s).islands, P isl := by
  intro fuel
  induction fuel with
  | zero => intro acc attempts s h; simpa [genLoop] using h
  | succ n ih =>
    intro acc attempts s h
    simp only [genLoop]
    split_ifs with h1 h2
    · exact ih _ _ _ h
    · refine ih _ _ _ ?_
      intro isl hisl
      rw [List.mem_append] at hisl
      rcases hisl with hisl | hisl
      · exact h isl hisl
      · rw [List.mem_singleton] at hisl
        subst hisl
        refine hP _ _ _ _ _ ?_ ?_
        · have := rand_nonneg s
          nlinarith
        · have := rand_lt_one s
          nlinarith
    · exact h

theorem generateIslands_pairwise (ops : MathOps) (count : ℕ) (s : RngState) :
    (generateIslands ops count s).1.Pairwise islandSep :=
  genLoop_pairwise ops count (count * 60) [] 0 s List.Pairwise.nil

theorem generateIslands_mem (ops : MathOps) (count : ℕ) (s : RngState) {P : Island → Prop}
    (hP : ∀ (idx : ℕ) (x y radius : ℚ) (s' : RngState),
      200 ≤ radius → radius ≤ 520 → P (buildIsland ops idx x y radius s').1) :
    ∀ isl ∈ (generateIslands ops count s).1, P isl :=
  genLoop_mem ops count hP (count * 60) [] 0 s (by simp)

theorem islandSep_symm {a b : Island} (h : islandSep a b) : islandSep b a := by
  unfold islandSep at h ⊢
  nlinarith [h]

/-! ## C4: island non-overlap -/

/-- **C4.**  Any two distinct islands produced by `generateIslands` have
centers at least `A.radius + B.radius + MIN_ISLAND_GAP` apart (stated in
the equivalent squared form, since the radii and the gap are positive):
the placement loop only accepts a candidate after the
`Math.hypot dx dy < existing.radius + radius + MIN_ISLAND_GAP` rejection
test fails against every accepted island. -/
theorem c4_island_separation (ops : MathOps) (count : ℕ) (s : RngState) (i j : ℕ)
    (hi : i < (generateIslands ops count s).1.length)
    (hj : j < (generateIslands ops count s).1.length) (hne : i ≠ j) :
    islandSep ((generateIslands ops count s).1.getD i dIsland)
      ((generateIslands ops count s).1.getD j dIsland) := by
  have hp := generateIslands_pairwise ops count s
  rw [List.pairwise_iff_get] at hp
  rw [List.getD_eq_get _ _ hi, List.getD_eq_get _ _ hj]
  rcases lt_or_gt_of_ne hne with hlt | hgt
  · exact hp ⟨i, hi⟩ ⟨j, hj⟩ hlt
  · exact islandSep_symm (hp ⟨j, hj⟩ ⟨i, hi⟩ hgt)

/-- Witness for C4: the seed `"abc123"` yields two islands, and their
centers satisfy the separation bound. -/
theorem c4_witness :
    1 < (generateIslands ops0 2 rng0).1.length ∧
      islandSep ((generateIslands ops0 2 rng0).1.getD 0 dIsland)
        ((generateIslands ops0 2 rng0).1.getD 1 dIsland) :=
  ⟨by with_unfolding_all decide,
    c4_island_separation ops0 2 rng0 0 1 (by with_unfolding_all decide)
      (by with_unfolding_all decide) (by decide)⟩

/-! ## C8: bounded generation -/

/-- **C8.**  `generateIslands count rng` is total (the embedding is a
terminating function for every `count ≥ 0` and RNG state, with
under-generation tolerated rather than an error), uses at most
`count * 60` candidate-placement attempts, and returns at most `count`
islands. -/
theorem c8_generation_bounded (ops : MathOps) (count : ℕ) (s : RngState) :
    (genLoop ops count (count * 60) [] 0 s).attempts ≤ count * 60 ∧
      (generateIslands ops count s).1.length ≤ count := by
  constructor
  · simpa using genLoop_attempts_le ops count (count * 60) [] 0 s
  · exact genLoop_length_le ops count (count * 60) [] 0 s (by simp)

/-! ## C5: ring nesting -/

/-- **C5.**  For every generated island, the beach, grass and canopy
rings sample the same indices as the coastline (equal lengths), and at
every index the radii nest: canopy ≤ grass ≤ beach ≤ coastline, despite
the independent per-point multiplicative jitter of `createInnerRing`
(the jitter bands `0.5·[0.89,1.11]`, `0.68·[0.92,1.08]`, `0.98·[0.99,1.01]`
are disjoint and below the cap `0.995`). -/
theorem c5_ring_nesting (ops : MathOps) (count : ℕ) (s : RngState) (k i : ℕ)
    (hk : k < (generateIslands ops count s).1.length)
    (hi : i < ((generateIslands ops count s).1.getD k dIsland).coastline.length) :
    ((generateIslands ops count s).1.getD k dIsland).beach.length =
        ((generateIslands ops count s).1.getD k dIsland).coastline.length ∧
      ((generateIslands ops count s).1.getD k dIsland).grass.length =
        ((generateIslands ops count s).1.getD k dIsland).coastline.length ∧
      ((generateIslands ops count s).1.getD k dIsland).canopy.length =
        ((generateIslands ops count s).1.getD k dIsland).coastline.length ∧
      (((generateIslands ops count s).1.getD k dIsland).canopy.getD i dCoastPt).radius ≤
        (((generateIslands ops count s).1.getD k dIsland).grass.getD i dCoastPt).radius ∧
      (((generateIslands ops count s).1.getD k dIsland).grass.getD i dCoastPt).radius ≤
        (((generateIslands ops count s).1.getD k dIsland).beach.getD i dCoastPt).radius ∧
      (((generateIslands ops count s).1.getD k dIsland).beach.getD i dCoastPt).radius ≤
        (((generateIslands ops count s).1.getD k dIsland).coastline.getD i dCoastPt).radius := by
  have hmem : (generateIslands ops count s).1.getD k dIsland ∈ (generateIslands ops count s).1 := by
    rw [List.getD_eq_get _ _ hk]
    exact List.get_mem _ k hk
  have hall := generateIslands_mem ops count s
    (P := fun isl =>
      isl.beach.length = isl.coastline.length ∧
      isl.grass.length = isl.coastline.length ∧
      isl.canopy.length = isl.coastline.length ∧
      ∀ i, i < isl.coastline.length →
        (isl.canopy.getD i dCoastPt).radius ≤ (isl.grass.getD i dCoastPt).radius ∧
        (isl.grass.getD i dCoastPt).radius ≤ (isl.beach.getD i dCoastPt).radius ∧
        (isl.beach.getD i dCoastPt).radius ≤ (isl.coastline.getD i dCoastPt).radius)
    (fun idx x y radius s' h200 _h520 => by
      obtain ⟨_, hlens, _, hchain⟩ := buildIsland_nesting ops idx x y radius s' (by linarith)
      exact ⟨hlens.1, hlens.2.1, hlens.2.2, hchain⟩)
  obtain ⟨hl1, hl2, hl3, hchain⟩ := hall _ hmem
  obtain ⟨hc1, hc2, hc3⟩ := hchain i hi
  exact ⟨hl1, hl2, hl3, hc1, hc2, hc3⟩

/-- Witness for C5: the island generated from seed `"abc123"` has equal
ring lengths and nested radii at index 0. -/
theorem c5_witness :
    0 < (generateIslands ops0 1 rng0).1.length ∧
      0 < ((generateIslands ops0 1 rng0).1.getD 0 dIsland).coastline.length ∧
      ((generateIslands ops0 1 rng0).1.getD 0 dIsland).beach.length =
        ((generateIslands ops0 1 rng0).1.getD 0 dIsland).coastline.length ∧
      ((generateIslands ops0 1 rng0).1.getD 0 dIsland).grass.length =
        ((generateIslands ops0 1 rng0).1.getD 0 dIsland).coastline.length ∧
      ((generateIslands ops0 1 rng0).1.getD 0 dIsland).canopy.length =
        ((generateIslands ops0 1 rng0).1.getD 0 dIsland).coastline.length ∧
      (((generateIslands ops0 1 rng0).1.getD 0 dIsland).canopy.getD 0 dCoastPt).radius ≤
        (((generateIslands ops0 1 rng0).1.getD 0 dIsland).grass.getD 0 dCoastPt).radius ∧
      (((generateIslands ops0 1 rng0).1.getD 0 dIsland).grass.getD 0 dCoastPt).radius ≤
        (((generateIslands ops0 1 rng0).1.getD 0 dIsland).beach.getD 0 dCoastPt).radius ∧
      (((generateIslands ops0 1 rng0).1.getD 0 dIsland).beach.getD 0 dCoastPt).radius ≤
        (((generateIslands ops0 1 rng0).1.getD 0 dIsland).coastline.getD 0 dCoastPt).radius := by
  have h := c5_ring_nesting ops0 1 rng0 0 0 (by with_unfolding_all decide)
    (by with_unfolding_all decide)
  exact ⟨by with_unfolding_all decide, by with_unfolding_all decide,
    h.1, h.2.1, h.2.2.1, h.2.2.2.1, h.2.2.2.2.1, h.2.2.2.2.2⟩

/-! ## C2: the collision prefilter -/

theorem rot_clamp_sq_bound (c sn radius m : ℚ) (h : sn ^ 2 + c ^ 2 ≤ 1) (hr : 0 ≤ radius) :
    (c * (radius * max 0.48 (min 1.48 m))) ^ 2 + (sn * (radius * max 0.48 (min 1.48 m))) ^ 2
      ≤ (1.48 * radius) ^ 2 := by
  obtain ⟨h1, h2⟩ := radius_mul_clamp_band radius m hr
  set X := radius * max 0.48 (min 1.48 m) with hX
  have hX0 : 0 ≤ X := le_trans (by nlinarith) h1
  have e1 : (c * X) ^ 2 + (sn * X) ^ 2 = (sn ^ 2 + c ^ 2) * X ^ 2 := by ring
  have e2 : (sn ^ 2 + c ^ 2) * X ^ 2 ≤ 1 * X ^ 2 :=
    mul_le_mul_of_nonneg_right h (sq_nonneg X)
  have e3 : X ^ 2 ≤ (1.48 * radius) ^ 2 := by nlinarith
  linarith

/-- Each coastline sample lies within `1.48 · radius` of the island
center, provided the trig functions do not expand the unit circle. -/
theorem coastPoint_coord_bound (ops : MathOps) (radius : ℚ) (segments : ℕ)
    (mp sp dp mcp ma sa da mca js : ℚ) (hl cv : List Bump) (i : ℕ) (s : RngState)
    (hops : TrigBounded ops) (hr : 0 ≤ radius) :
    (coastPoint ops radius segments mp sp dp mcp ma sa da mca js hl cv i s).1.x ^ 2 +
        (coastPoint ops radius segments mp sp dp mcp ma sa da mca js hl cv i s).1.y ^ 2
      ≤ (1.48 * radius) ^ 2 := by
  unfold coastPoint
  exact rot_clamp_sq_bound _ _ _ _ (hops _) hr

theorem generateCoastlineShape_coord (ops : MathOps) (radius : ℚ) (s : RngState)
    (hops : TrigBounded ops) (hr : 0 ≤ radius) :
    ∀ p ∈ (generateCoastlineShape ops radius s).1,
      p.x ^ 2 + p.y ^ 2 ≤ (1.48 * radius) ^ 2 := by
  unfold generateCoastlineShape
  simp only
  exact mapRand_forall_mem
    (fun i s' => coastPoint_coord_bound ops radius _ _ _ _ _ _ _ _ _ _ _ _ i s' hops hr) _ _

/-- Every island the generator produces satisfies `IslandInv` (for any
trig-bounded operation bundle): this is the sense in which the
counterexample island below is generator-shaped. -/
theorem generateIslands_islandInv (ops : MathOps) (count : ℕ) (s : RngState)
    (hops : TrigBounded ops) :
    ∀ isl ∈ (generateIslands ops count s).1, IslandInv isl := by
  refine generateIslands_mem ops count s (P := IslandInv) ?_
  intro idx x y radius s' h200 h520
  have hr : (0 : ℚ) ≤ radius := by linarith
  obtain ⟨⟨hl46, hl65⟩, _, hband, _⟩ := buildIsland_nesting ops idx x y radius s' hr
  refine ⟨?_, ?_, hl46, hl65, ?_⟩
  · rw [buildIsland_radius]; exact h200
  · rw [buildIsland_radius]; exact h520
  · intro p hp
    rw [buildIsland_radius]
    rw [buildIsland_coastline] at hp
    have hcoord := generateCoastlineShape_coord ops radius s' hops hr p hp
    have hb := hband p (by rw [buildIsland_coastline]; exact hp)
    exact ⟨hb.1, hb.2, hcoord⟩

/-- **C2 (counterexample).**  The circumscribed-circle prefilter is not
sound: `cexIsland` satisfies the generator-shape invariant `IslandInv`
(base radius 200, 46 coastline samples all within `1.48 · 200 = 296` of
the center), yet for the boat pose 270 units east of the center —
farther than `radius + MAX_BOAT_EXTENT = 258`, so the island is skipped
— the boat center lies inside the coastline polygon: the prefiltered
`detectCollision` answers `false` while the exact tests answer `true`,
refuting the claimed equivalence. -/
theorem c2_counterexample :
    (IslandInv cexIsland ∧
      detectCollision ops0 cexBoat [cexIsland] = false ∧
      detectCollisionNoFilter ops0 cexBoat [cexIsland] = true) ∧
    ¬ (∀ (ops : MathOps) (boat : CollPose) (islands : List Island),
        (∀ isl ∈ islands, IslandInv isl) →
        detectCollision ops boat islands = detectCollisionNoFilter ops boat islands) := by
  have h1 : detectCollision ops0 cexBoat [cexIsland] = false := by
    with_unfolding_all decide
  have h2 : detectCollisionNoFilter ops0 cexBoat [cexIsland] = true := by
    with_unfolding_all decide
  have h0 : IslandInv cexIsland := by with_unfolding_all decide
  refine ⟨⟨h0, h1, h2⟩, ?_⟩
  intro h
  have h3 := h ops0 cexBoat [cexIsland] ?_
  · rw [h1, h2] at h3
    exact Bool.false_ne_true h3
  · intro isl hm
    rw [List.mem_singleton] at hm
    subst hm
    exact h0

/-- **C2 (amended).**  The prefilter is one-sided: whenever the
prefiltered `detectCollision` reports a collision, the exact
point-in-polygon / edge-proximity tests over all islands also report
one (skipping can only suppress hits, never add them).  The claimed
converse fails because coastline points may lie up to `1.48 · radius`
from the center, beyond the prefilter circle `radius + MAX_BOAT_EXTENT`. -/
theorem c2_prefilter_one_sided (ops : MathOps) (boat : CollPose) (islands : List Island)
    (h : detectCollision ops boat islands = true) :
    detectCollisionNoFilter ops boat islands = true := by
  unfold detectCollision at h
  unfold detectCollisionNoFilter
  rw [List.any_eq_true] at h ⊢
  obtain ⟨isl, hmem, hpred⟩ := h
  refine ⟨isl, hmem, ?_⟩
  dsimp only at hpred
  by_cases hc : (boat.x - isl.x) * (boat.x - isl.x) + (boat.y - isl.y) * (boat.y - isl.y)
      > (isl.radius + MAX_BOAT_EXTENT) * (isl.radius + MAX_BOAT_EXTENT)
  · rw [if_pos hc] at hpred
    exact absurd hpred (by simp)
  · rw [if_neg hc] at hpred
    exact hpred

/-- Witness for the amended C2: a boat at `cexIsland`'s center passes
the prefilter and collides, so the exact detector must also fire. -/
theorem c2_amended_witness :
    detectCollisionNoFilter ops0 ⟨5000, 5000, 0⟩ [cexIsland] = true :=
  c2_prefilter_one_sided ops0 ⟨5000, 5000, 0⟩ [cexIsland] (by with_unfolding_all decide)

/-! ## Stage lemmas for `updateBoat` -/

theorem sailStage_fixed (cmds : Commands) (dt : ℚ) (b : BoatState) :
    (sailStage cmds dt b).x = b.x ∧ (sailStage cmds dt b).y = b.y ∧
    (sailStage cmds dt b).heading = b.heading ∧ (sailStage cmds dt b).speed = b.speed ∧
    (sailStage cmds dt b).idleTime = b.idleTime ∧
    (sailStage cmds dt b).anchorState = b.anchorState ∧
    (sailStage cmds dt b).anchorProgress = b.anchorProgress ∧
    (sailStage cmds dt b).wakeTimer = b.wakeTimer := by
  unfold sailStage
  split_ifs <;> simp

theorem iteBounds {c : Prop} {inst : Decidable c} {x y lo hi : ℚ}
    (hx : lo ≤ x ∧ x ≤ hi) (hy : lo ≤ y ∧ y ≤ hi) :
    lo ≤ (@ite ℚ c inst x y) ∧ (@ite ℚ c inst x y) ≤ hi := by
  by_cases h : c
  · rw [if_pos h]; exact hx
  · rw [if_neg h]; exact hy

theorem sailStage_bounds (cmds : Commands) (dt : ℚ) (b : BoatState)
    (h1 : 0 ≤ b.sailLevel) (h2 : b.sailLevel ≤ 1)
    (h3 : 0 ≤ b.sailTarget) (h4 : b.sailTarget ≤ 1) :
    0 ≤ (sailStage cmds dt b).sailLevel ∧ (sailStage cmds dt b).sailLevel ≤ 1 ∧
      0 ≤ (sailStage cmds dt b).sailTarget ∧ (sailStage cmds dt b).sailTarget ≤ 1 := by
  have hc : ∀ v : ℚ, 0 ≤ clampQ v 0 1 ∧ clampQ v 0 1 ≤ 1 := fun v =>
    ⟨le_clampQ v 0 1, clampQ_le (by norm_num)⟩
  unfold sailStage
  dsimp only
  exact ⟨(iteBounds (hc _) ⟨h1, h2⟩).1, (iteBounds (hc _) ⟨h1, h2⟩).2,
    (iteBounds (hc _) (iteBounds (hc _) ⟨h3, h4⟩)).1,
    (iteBounds (hc _) (iteBounds (hc _) ⟨h3, h4⟩)).2⟩

theorem sailStage_dt_zero (cmds : Commands) (b : BoatState)
    (h1 : 0 ≤ b.sailLevel) (h2 : b.sailLevel ≤ 1)
    (h3 : 0 ≤ b.sailTarget) (h4 : b.sailTarget ≤ 1) :
    sailStage cmds 0 b = b := by
  unfold sailStage
  have ht : clampQ (b.sailTarget + 0 * 0.7) 0 1 = b.sailTarget := by
    rw [zero_mul, add_zero]
    exact clampQ_of_mem h3 h4
  have ht2 : clampQ (b.sailTarget - 0 * 0.7) 0 1 = b.sailTarget := by
    rw [zero_mul, sub_zero]
    exact clampQ_of_mem h3 h4
  split_ifs <;> simp_all [mul_comm, clampQ_of_mem, min_eq_right, abs_nonneg]

theorem idleStage_fixed (cmds : Commands) (dt : ℚ) (b : BoatState) :
    (idleStage cmds dt b).x = b.x ∧ (idleStage cmds dt b).y = b.y ∧
    (idleStage cmds dt b).heading = b.heading ∧ (idleStage cmds dt b).speed = b.speed ∧
    (idleStage cmds dt b).sailLevel = b.sailLevel ∧
    (idleStage cmds dt b).sailTarget = b.sailTarget ∧
    (idleStage cmds dt b).anchorState = b.anchorState ∧
    (idleStage cmds dt b).anchorProgress = b.anchorProgress ∧
    (idleStage cmds dt b).wakeTimer = b.wakeTimer := by
  unfold idleStage
  dsimp only
  split_ifs <;> simp

theorem idleStage_idle_cases (cmds : Commands) (dt : ℚ) (b : BoatState) :
    (idleStage cmds dt b).idleTime = b.idleTime + dt ∨
      (idleStage cmds dt b).idleTime = 0 ∨
      (idleStage cmds dt b).idleTime = b.idleTime := by
  unfold idleStage
  dsimp only
  split_ifs <;> simp

theorem idleStage_idle_nonneg (cmds : Commands) (dt : ℚ) (b : BoatState)
    (h : 0 ≤ b.idleTime) (hdt : 0 ≤ dt) : 0 ≤ (idleStage cmds dt b).idleTime := by
  unfold idleStage
  dsimp only
  split_ifs
  · dsimp only
    linarith
  · dsimp only
    linarith
  · exact h

theorem anchorStage_spec (cmds : Commands) (dt : ℚ) (b : BoatState)
    (hdt : 0 ≤ dt) (hsp : 0 ≤ b.speed) (hp0 : 0 ≤ b.anchorProgress)
    (hp1 : b.anchorProgress ≤ 1) :
    (anchorStage cmds dt b).x = b.x ∧ (anchorStage cmds dt b).y = b.y ∧
    (anchorStage cmds dt b).heading = b.heading ∧
    (anchorStage cmds dt b).sailLevel = b.sailLevel ∧
    (anchorStage cmds dt b).sailTarget = b.sailTarget ∧
    (anchorStage cmds dt b).wakeTimer = b.wakeTimer ∧
    (0 ≤ (anchorStage cmds dt b).speed ∧ (anchorStage cmds dt b).speed ≤ b.speed) ∧
    (0 ≤ (anchorStage cmds dt b).anchorProgress ∧
      (anchorStage cmds dt b).anchorProgress ≤ 1) ∧
    ((anchorStage cmds dt b).idleTime = b.idleTime ∨ (anchorStage cmds dt b).idleTime = 0) ∧
    ((anchorStage cmds dt b).anchorState = .stowed →
      (anchorStage cmds dt b).idleTime = 0 ∨
        ((anchorStage cmds dt b).idleTime = b.idleTime ∧ b.idleTime < 3)) ∧
    ((anchorStage cmds dt b).anchorState = .dropping →
      (anchorStage cmds dt b).anchorProgress < 1) ∧
    ((anchorStage cmds dt b).anchorState = .weighing →
      (anchorStage cmds dt b).anchorProgress < 1) ∧
    ((anchorStage cmds dt b).anchorState = .anchored →
      (anchorStage cmds dt b).anchorProgress = 1) := by
  have h220 : (0 : ℚ) ≤ BRAKE_DECELERATION * dt := by
    unfold BRAKE_DECELERATION
    nlinarith
  unfold anchorStage
  by_cases hT : b.anchorState = .stowed ∧ b.idleTime ≥ 3
  · rw [if_pos hT]
    dsimp only
    by_cases hP : min 1 ((0 : ℚ) + dt) ≥ 1
    · rw [if_pos hP]
      refine ⟨rfl, rfl, rfl, rfl, rfl, rfl, ?_, ?_, Or.inl rfl, ?_, ?_, ?_, ?_⟩
      · exact ⟨le_max_left _ _, max_le hsp (by linarith)⟩
      · exact ⟨le_min (by norm_num) (by linarith), min_le_left _ _⟩
      · intro h; exact absurd h (by simp)
      · intro h; exact absurd h (by simp)
      · intro h; exact absurd h (by simp)
      · intro _; exact le_antisymm (min_le_left _ _) hP
    · rw [if_neg hP]
      push_neg at hP
      refine ⟨rfl, rfl, rfl, rfl, rfl, rfl, ?_, ?_, Or.inl rfl, ?_, ?_, ?_, ?_⟩
      · exact ⟨le_max_left _ _, max_le hsp (by linarith)⟩
      · exact ⟨le_min (by norm_num) (by linarith), min_le_left _ _⟩
      · intro h; exact absurd h (by simp)
      · intro _; exact hP
      · intro h; exact absurd h (by simp)
      · intro h; exact absurd h (by simp)
  · rw [if_neg hT]
    dsimp only
    cases hstate : b.anchorState with
    | stowed =>
      dsimp only
      have hidle : b.idleTime < 3 := by
        by_contra hge
        exact hT ⟨hstate, by linarith⟩
      refine ⟨rfl, rfl, rfl, rfl, rfl, rfl, ⟨hsp, le_refl _⟩, ⟨hp0, hp1⟩, Or.inl rfl,
        fun _ => Or.inr ⟨rfl, hidle⟩, ?_, ?_, ?_⟩ <;>
        · rw [hstate]
          intro h
          simp at h
    | dropping =>
      dsimp only
      by_cases hP : min 1 (b.anchorProgress + dt) ≥ 1
      · rw [if_pos hP]
        refine ⟨rfl, rfl, rfl, rfl, rfl, rfl, ?_, ?_, Or.inl rfl, ?_, ?_, ?_, ?_⟩
        · exact ⟨le_max_left _ _, max_le hsp (by linarith)⟩
        · exact ⟨le_min (by norm_num) (by linarith), min_le_left _ _⟩
        · intro h; exact absurd h (by simp)
        · intro h; exact absurd h (by simp)
        · intro h; exact absurd h (by simp)
        · intro _; exact le_antisymm (min_le_left _ _) hP
      · rw [if_neg hP]
        push_neg at hP
        refine ⟨rfl, rfl, rfl, rfl, rfl, rfl, ?_, ?_, Or.inl rfl, ?_, ?_, ?_, ?_⟩
        · exact ⟨le_max_left _ _, max_le hsp (by linarith)⟩
        · exact ⟨le_min (by norm_num) (by linarith), min_le_left _ _⟩
        · intro h; exact absurd h (by simp)
        · intro _; exact hP
        · intro h; exact absurd h (by simp)
        · intro h; exact absurd h (by simp)
    | anchored =>
      dsimp only
      by_cases hA : attemptingToMove cmds = true
      · rw [if_pos hA]
        refine ⟨rfl, rfl, rfl, rfl, rfl, rfl, ⟨le_refl _, hsp⟩,
          ⟨le_refl _, by norm_num⟩, Or.inl rfl, ?_, ?_, ?_, ?_⟩
        · intro h; exact absurd h (by simp)
        · intro h; exact absurd h (by simp)
        · intro _; norm_num
        · intro h; exact absurd h (by simp)
      · rw [if_neg hA]
        refine ⟨rfl, rfl, rfl, rfl, rfl, rfl, ⟨le_refl _, hsp⟩,
          ⟨by norm_num, le_refl _⟩, Or.inl rfl, ?_, ?_, ?_, ?_⟩
        · intro h; exact absurd h (by simp)
        · intro h; exact absurd h (by simp)
        · intro h; exact absurd h (by simp)
        · intro _; rfl
    | weighing =>
      dsimp only
      by_cases hP : min 1 (b.anchorProgress + dt) ≥ 1
      · rw [if_pos hP]
        refine ⟨rfl, rfl, rfl, rfl, rfl, rfl, ⟨le_refl _, hsp⟩,
          ⟨by norm_num, by norm_num⟩, Or.inr rfl, ?_, ?_, ?_, ?_⟩
        · intro _; exact Or.inl rfl
        · intro h; exact absurd h (by simp)
        · intro h; exact absurd h (by simp)
        · intro h; exact absurd h (by simp)
      · rw [if_neg hP]
        push_neg at hP
        refine ⟨rfl, rfl, rfl, rfl, rfl, rfl, ⟨le_refl _, hsp⟩,
          ⟨le_min (by norm_num) (by linarith), min_le_left _ _⟩, Or.inl rfl, ?_, ?_, ?_, ?_⟩
        · intro h; exact absurd h (by simp)
        · intro h; exact absurd h (by simp)
        · intro _; exact hP
        · intro h; exact absurd h (by simp)

theorem desiredSpeed_bounds (b : BoatState) (h1 : 0 ≤ b.sailLevel) (h2 : b.sailLevel ≤ 1) :
    0 ≤ desiredSpeed b ∧ desiredSpeed b ≤ MAX_FORWARD_SPEED := by
  unfold desiredSpeed MAX_FORWARD_SPEED
  split_ifs
  · norm_num
  · constructor <;> nlinarith

theorem accelStage_fixed (dt : ℚ) (b : BoatState) :
    (accelStage dt b).x = b.x ∧ (accelStage dt b).y = b.y ∧
    (accelStage dt b).heading = b.heading ∧
    (accelStage dt b).sailLevel = b.sailLevel ∧
    (accelStage dt b).sailTarget = b.sailTarget ∧
    (accelStage dt b).idleTime = b.idleTime ∧
    (accelStage dt b).anchorState = b.anchorState ∧
    (accelStage dt b).anchorProgress = b.anchorProgress ∧
    (accelStage dt b).wakeTimer = b.wakeTimer := by
  unfold accelStage
  dsimp only
  split_ifs <;> simp

theorem accelStage_speed_bounds (dt : ℚ) (b : BoatState) (hdt : 0 ≤ dt)
    (hs0 : 0 ≤ b.speed) (hs1 : b.speed ≤ MAX_FORWARD_SPEED)
    (h1 : 0 ≤ b.sailLevel) (h2 : b.sailLevel ≤ 1) :
    0 ≤ (accelStage dt b).speed ∧ (accelStage dt b).speed ≤ MAX_FORWARD_SPEED := by
  obtain ⟨hd0, hd1⟩ := desiredSpeed_bounds b h1 h2
  have hA : (0 : ℚ) ≤ ACCELERATION * dt := by unfold ACCELERATION; nlinarith
  have hB : (0 : ℚ) ≤ BRAKE_DECELERATION * dt := by unfold BRAKE_DECELERATION; nlinarith
  unfold accelStage
  dsimp only
  split_ifs with hlt hgt
  · exact ⟨le_min hd0 (by linarith), le_trans (min_le_left _ _) hd1⟩
  · exact ⟨le_trans hd0 (le_max_left _ _), max_le hd1 (by linarith)⟩
  · exact ⟨hs0, hs1⟩

theorem accelStage_dt_zero (b : BoatState) : accelStage 0 b = b := by
  unfold accelStage
  dsimp only
  split_ifs with h1 h2
  · rw [show ACCELERATION * 0 = 0 by norm_num, add_zero, min_eq_right (le_of_lt h1)]
  · rw [show BRAKE_DECELERATION * 0 = 0 by norm_num, sub_zero, max_eq_right (le_of_lt h2)]
  · rfl

theorem snapStage_fixed (cmds : Commands) (b : BoatState) :
    (snapStage cmds b).x = b.x ∧ (snapStage cmds b).y = b.y ∧
    (snapStage cmds b).heading = b.heading ∧
    (snapStage cmds b).sailLevel = b.sailLevel ∧
    (snapStage cmds b).sailTarget = b.sailTarget ∧
    (snapStage cmds b).idleTime = b.idleTime ∧
    (snapStage cmds b).anchorState = b.anchorState ∧
    (snapStage cmds b).anchorProgress = b.anchorProgress ∧
    (snapStage cmds b).wakeTimer = b.wakeTimer := by
  unfold snapStage
  split_ifs <;> simp

theorem snapStage_speed_cases (cmds : Commands) (b : BoatState) :
    (snapStage cmds b).speed = b.speed ∨ (snapStage cmds b).speed = 0 := by
  unfold snapStage
  split_ifs <;> simp

theorem steerStage_fixed (cmds : Commands) (dt : ℚ) (b : BoatState) :
    (steerStage cmds dt b).x = b.x ∧ (steerStage cmds dt b).y = b.y ∧
    (steerStage cmds dt b).speed = b.speed ∧
    (steerStage cmds dt b).sailLevel = b.sailLevel ∧
    (steerStage cmds dt b).sailTarget = b.sailTarget ∧
    (steerStage cmds dt b).idleTime = b.idleTime ∧
    (steerStage cmds dt b).anchorState = b.anchorState ∧
    (steerStage cmds dt b).anchorProgress = b.anchorProgress ∧
    (steerStage cmds dt b).wakeTimer = b.wakeTimer := by
  unfold steerStage
  dsimp only
  exact ⟨rfl, rfl, rfl, rfl, rfl, rfl, rfl, rfl, rfl⟩

theorem steerStage_dt_zero (cmds : Commands) (b : BoatState) : steerStage cmds 0 b = b := by
  unfold steerStage
  dsimp only
  split_ifs <;>
    simp [show ∀ t : ℚ, TURN_RATE * 0 * t = 0 from fun t => by norm_num]

theorem moveStage_fixed (ops : MathOps) (islands : List Island) (dt : ℚ) (b : BoatState) :
    (moveStage ops islands dt b).heading = b.heading ∧
    (moveStage ops islands dt b).sailLevel = b.sailLevel ∧
    (moveStage ops islands dt b).sailTarget = b.sailTarget ∧
    (moveStage ops islands dt b).idleTime = b.idleTime ∧
    (moveStage ops islands dt b).anchorState = b.anchorState ∧
    (moveStage ops islands dt b).anchorProgress = b.anchorProgress ∧
    (moveStage ops islands dt b).wakeTimer = b.wakeTimer := by
  unfold moveStage
  dsimp only
  split_ifs <;> simp

theorem moveStage_xy_bounds (ops : MathOps) (islands : List Island) (dt : ℚ) (b : BoatState)
    (hx0 : 0 ≤ b.x) (hx1 : b.x ≤ MAP_SIZE) (hy0 : 0 ≤ b.y) (hy1 : b.y ≤ MAP_SIZE) :
    (0 ≤ (moveStage ops islands dt b).x ∧ (moveStage ops islands dt b).x ≤ MAP_SIZE) ∧
      0 ≤ (moveStage ops islands dt b).y ∧ (moveStage ops islands dt b).y ≤ MAP_SIZE := by
  have hM : (0 : ℚ) ≤ MAP_SIZE := by norm_num [MAP_SIZE]
  unfold moveStage
  dsimp only
  split_ifs
  · exact ⟨⟨hx0, hx1⟩, hy0, hy1⟩
  · exact ⟨⟨le_clampQ _ _ _, clampQ_le hM⟩, le_clampQ _ _ _, clampQ_le hM⟩

theorem moveStage_speed (ops : MathOps) (islands : List Island) (dt : ℚ) (b : BoatState)
    (hs0 : 0 ≤ b.speed) :
    0 ≤ (moveStage ops islands dt b).speed ∧ (moveStage ops islands dt b).speed ≤ b.speed := by
  unfold moveStage
  dsimp only
  split_ifs
  · exact ⟨le_min hs0 (by norm_num), min_le_left _ _⟩
  · exact ⟨hs0, le_refl _⟩

theorem moveStage_speed_cases (ops : MathOps) (islands : List Island) (dt : ℚ) (b : BoatState) :
    (moveStage ops islands dt b).speed = b.speed ∨
      (moveStage ops islands dt b).speed = min b.speed 38 := by
  unfold moveStage
  dsimp only
  split_ifs <;> simp

theorem moveStage_dt_zero_xy (ops : MathOps) (islands : List Island) (b : BoatState)
    (hx0 : 0 ≤ b.x) (hx1 : b.x ≤ MAP_SIZE) (hy0 : 0 ≤ b.y) (hy1 : b.y ≤ MAP_SIZE) :
    (moveStage ops islands 0 b).x = b.x ∧ (moveStage ops islands 0 b).y = b.y := by
  unfold moveStage proposedPose
  dsimp only
  split_ifs
  · exact ⟨rfl, rfl⟩
  · constructor <;>
      · dsimp only
        rw [mul_zero, add_zero]
        exact clampQ_of_mem (by assumption) (by assumption)

theorem moveStage_collision (ops : MathOps) (islands : List Island) (dt : ℚ) (b : BoatState)
    (h : detectCollision ops (proposedPose ops dt b) islands = true) :
    (moveStage ops islands dt b).x = b.x ∧ (moveStage ops islands dt b).y = b.y ∧
      (moveStage ops islands dt b).speed = min b.speed 38 := by
  unfold moveStage
  dsimp only
  rw [if_pos h]
  exact ⟨rfl, rfl, rfl⟩

theorem wakeStage_fixed (dt : ℚ) (b : BoatState) :
    (wakeStage dt b).x = b.x ∧ (wakeStage dt b).y = b.y ∧
    (wakeStage dt b).heading = b.heading ∧ (wakeStage dt b).speed = b.speed ∧
    (wakeStage dt b).sailLevel = b.sailLevel ∧
    (wakeStage dt b).sailTarget = b.sailTarget ∧
    (wakeStage dt b).idleTime = b.idleTime ∧
    (wakeStage dt b).anchorState = b.anchorState ∧
    (wakeStage dt b).anchorProgress = b.anchorProgress := by
  unfold wakeStage
  simp

theorem wakeStage_bounds (dt : ℚ) (b : BoatState) (hdt : 0 ≤ dt)
    (hw : 0 ≤ b.wakeTimer) (hs : 0 ≤ b.speed) :
    0 ≤ (wakeStage dt b).wakeTimer ∧ (wakeStage dt b).wakeTimer < 1000 := by
  unfold wakeStage
  dsimp only
  have hk : (0 : ℚ) ≤ 0.8 + min (b.speed / MAX_FORWARD_SPEED) 1 * 3 := by
    have : (0 : ℚ) ≤ min (b.speed / MAX_FORWARD_SPEED) 1 :=
      le_min (by unfold MAX_FORWARD_SPEED; positivity) (by norm_num)
    nlinarith
  have ha : (0 : ℚ) ≤ b.wakeTimer + dt * (0.8 + min (b.speed / MAX_FORWARD_SPEED) 1 * 3) := by
    nlinarith
  exact ⟨jsMod_nonneg (by norm_num) ha, jsMod_lt (by norm_num)⟩

theorem jsMod_eq_self {a b : ℚ} (h0 : 0 ≤ a) (h1 : a < b) : jsMod a b = a := by
  have hb : (0 : ℚ) < b := lt_of_le_of_lt h0 h1
  unfold jsMod truncQ
  have hq0 : (0 : ℚ) ≤ a / b := div_nonneg h0 hb.le
  rw [if_pos hq0]
  have : ⌊a / b⌋ = 0 := by
    rw [Int.floor_eq_zero_iff]
    constructor
    · exact hq0
    · rw [div_lt_one hb] at *
      simpa using h1
  rw [this]
  push_cast
  ring

theorem wakeStage_dt_zero (b : BoatState) (hw0 : 0 ≤ b.wakeTimer) (hw1 : b.wakeTimer < 1000) :
    wakeStage 0 b = b := by
  unfold wakeStage
  rw [zero_mul, add_zero, jsMod_eq_self hw0 hw1]

theorem anchorStage_anchored (cmds : Commands) (dt : ℚ) (b : BoatState)
    (h : b.anchorState = .anchored) :
    (anchorStage cmds dt b).speed = 0 ∧
    (attemptingToMove cmds = true →
      (anchorStage cmds dt b).anchorState = .weighing ∧
        (anchorStage cmds dt b).anchorProgress = 0) ∧
    (attemptingToMove cmds = false → (anchorStage cmds dt b).anchorState = .anchored) := by
  unfold anchorStage
  dsimp only
  have hT : ¬(b.anchorState = AnchorState.stowed ∧ b.idleTime ≥ 3) := by
    rintro ⟨h1, -⟩
    rw [h] at h1
    exact absurd h1 (by simp)
  rw [if_neg hT, h]
  dsimp only
  by_cases hA : attemptingToMove cmds = true
  · rw [if_pos hA]
    exact ⟨rfl, fun _ => ⟨rfl, rfl⟩, fun hf => absurd hA (by rw [hf]; simp)⟩
  · rw [if_neg hA]
    exact ⟨rfl, fun ht => absurd ht hA, fun _ => rfl⟩

theorem desiredSpeed_blocked (b : BoatState) (hblk : anchorBlocks b.anchorState = true) :
    desiredSpeed b = 0 := by
  unfold desiredSpeed
  rw [hblk]
  simp

theorem accelStage_speed_zero (dt : ℚ) (b : BoatState) (hsp : b.speed = 0)
    (hblk : anchorBlocks b.anchorState = true) : (accelStage dt b).speed = 0 := by
  unfold accelStage
  dsimp only
  rw [desiredSpeed_blocked b hblk, hsp]
  norm_num
  exact hsp

theorem snapStage_speed_zero (cmds : Commands) (b : BoatState) (hsp : b.speed = 0) :
    (snapStage cmds b).speed = 0 := by
  rcases snapStage_speed_cases cmds b with hc | hc
  · rw [hc, hsp]
  · exact hc

theorem moveStage_speed_zero (ops : MathOps) (islands : List Island) (dt : ℚ)
    (b : BoatState) (hsp : b.speed = 0) : (moveStage ops islands dt b).speed = 0 := by
  rcases moveStage_speed_cases ops islands dt b with hc | hc
  · rw [hc, hsp]
  · rw [hc, hsp]
    norm_num

theorem anchorStage_dt_zero (cmds : Commands) (b : BoatState)
    (hsp : 0 ≤ b.speed)
    (hstow : b.anchorState = .stowed → b.idleTime < 3)
    (hdrop : b.anchorState = .dropping → b.anchorProgress < 1)
    (hweigh : b.anchorState = .weighing → b.anchorProgress < 1)
    (hanch : b.anchorState = .anchored → b.anchorProgress = 1) :
    (anchorStage cmds 0 b).idleTime = b.idleTime ∧
    ((anchorStage cmds 0 b).speed = b.speed ∨ (anchorStage cmds 0 b).speed = 0) ∧
    (((anchorStage cmds 0 b).anchorState = b.anchorState ∧
        (anchorStage cmds 0 b).anchorProgress = b.anchorProgress) ∨
      (b.anchorState = .anchored ∧ (anchorStage cmds 0 b).anchorState = .weighing ∧
        (anchorStage cmds 0 b).anchorProgress = 0)) := by
  unfold anchorStage
  dsimp only
  have hT : ¬(b.anchorState = AnchorState.stowed ∧ b.idleTime ≥ 3) := by
    rintro ⟨h1, h2⟩
    have := hstow h1
    linarith
  rw [if_neg hT]
  cases hstate : b.anchorState with
  | stowed =>
    dsimp only
    exact ⟨rfl, Or.inl rfl, Or.inl ⟨hstate, rfl⟩⟩
  | dropping =>
    dsimp only
    have hplt : b.anchorProgress < 1 := hdrop hstate
    have hP : ¬(min 1 (b.anchorProgress + 0) ≥ 1) := by
      rw [add_zero]
      push_neg
      exact min_lt_iff.mpr (Or.inr hplt)
    rw [if_neg hP]
    refine ⟨rfl, Or.inl ?_, Or.inl ⟨rfl, ?_⟩⟩
    · show max 0 (b.speed - BRAKE_DECELERATION * 0) = b.speed
      rw [show BRAKE_DECELERATION * 0 = 0 by norm_num, sub_zero, max_eq_right hsp]
    · show min 1 (b.anchorProgress + 0) = b.anchorProgress
      rw [add_zero, min_eq_right (le_of_lt hplt)]
  | anchored =>
    dsimp only
    by_cases hA : attemptingToMove cmds = true
    · rw [if_pos hA]
      exact ⟨rfl, Or.inr rfl, Or.inr ⟨rfl, rfl, rfl⟩⟩
    · rw [if_neg hA]
      exact ⟨rfl, Or.inr rfl, Or.inl ⟨rfl, (hanch hstate).symm⟩⟩
  | weighing =>
    dsimp only
    have hplt : b.anchorProgress < 1 := hweigh hstate
    have hP : ¬(min 1 (b.anchorProgress + 0) ≥ 1) := by
      rw [add_zero]
      push_neg
      exact min_lt_iff.mpr (Or.inr hplt)
    rw [if_neg hP]
    refine ⟨rfl, Or.inr rfl, Or.inl ⟨rfl, ?_⟩⟩
    show min 1 (b.anchorProgress + 0) = b.anchorProgress
    rw [add_zero, min_eq_right (le_of_lt hplt)]

/-- One simulation step preserves the boat invariant. -/
theorem updateBoat_inv (ops : MathOps) (islands : List Island) (cmds : Commands)
    (dt : ℚ) (b : BoatState) (hdt : 0 ≤ dt) (hinv : BoatInv b) :
    BoatInv (updateBoat ops islands cmds dt b) := by
  obtain ⟨hx0, hx1, hy0, hy1, hl0, hl1, ht0, ht1, hs0, hs1, hi0, hw0, hw1, hp0, hp1,
    hstow, hdropc, hweighc, hanchc⟩ := hinv
  obtain ⟨e1x, e1y, e1h, e1s, e1i, e1a, e1p, e1w⟩ := sailStage_fixed cmds dt b
  obtain ⟨l1, l2, l3, l4⟩ := sailStage_bounds cmds dt b hl0 hl1 ht0 ht1
  obtain ⟨e2x, e2y, e2h, e2s, e2l, e2t, e2a, e2p, e2w⟩ :=
    idleStage_fixed cmds dt (sailStage cmds dt b)
  have i2 : 0 ≤ (idleStage cmds dt (sailStage cmds dt b)).idleTime :=
    idleStage_idle_nonneg cmds dt (sailStage cmds dt b) (by rw [e1i]; exact hi0) hdt
  obtain ⟨a3x, a3y, a3h, a3l, a3t, a3w, a3sp, a3pr, a3idle, a3stow, a3drop, a3weigh, a3anch⟩ :=
    anchorStage_spec cmds dt (idleStage cmds dt (sailStage cmds dt b)) hdt
      (by rw [e2s, e1s]; exact hs0) (by rw [e2p, e1p]; exact hp0)
      (by rw [e2p, e1p]; exact hp1)
  obtain ⟨e4x, e4y, e4h, e4l, e4t, e4i, e4a, e4p, e4w⟩ :=
    accelStage_fixed dt (anchorStage cmds dt (idleStage cmds dt (sailStage cmds dt b)))
  have a4sp := accelStage_speed_bounds dt
    (anchorStage cmds dt (idleStage cmds dt (sailStage cmds dt b))) hdt a3sp.1
    (le_trans a3sp.2 (by rw [e2s, e1s]; exact hs1))
    (by rw [a3l, e2l]; exact l1) (by rw [a3l, e2l]; exact l2)
  obtain ⟨e5x, e5y, e5h, e5l, e5t, e5i, e5a, e5p, e5w⟩ :=
    snapStage_fixed cmds (accelStage dt (anchorStage cmds dt (idleStage cmds dt (sailStage cmds dt b))))
  have s5 := snapStage_speed_cases cmds
    (accelStage dt (anchorStage cmds dt (idleStage cmds dt (sailStage cmds dt b))))
  have s5b : 0 ≤ (snapStage cmds (accelStage dt (anchorStage cmds dt (idleStage cmds dt
      (sailStage cmds dt b))))).speed ∧
      (snapStage cmds (accelStage dt (anchorStage cmds dt (idleStage cmds dt
        (sailStage cmds dt b))))).speed ≤ MAX_FORWARD_SPEED := by
    rcases s5 with hc | hc
    · rw [hc]; exact a4sp
    · rw [hc]; exact ⟨le_refl _, by norm_num [MAX_FORWARD_SPEED]⟩
  obtain ⟨e6x, e6y, e6s, e6l, e6t, e6i, e6a, e6p, e6w⟩ :=
    steerStage_fixed cmds dt (snapStage cmds (accelStage dt (anchorStage cmds dt
      (idleStage cmds dt (sailStage cmds dt b)))))
  obtain ⟨e7h, e7l, e7t, e7i, e7a, e7p, e7w⟩ :=
    moveStage_fixed ops islands dt (steerStage cmds dt (snapStage cmds (accelStage dt
      (anchorStage cmds dt (idleStage cmds dt (sailStage cmds dt b))))))
  have m7xy := moveStage_xy_bounds ops islands dt (steerStage cmds dt (snapStage cmds
      (accelStage dt (anchorStage cmds dt (idleStage cmds dt (sailStage cmds dt b))))))
    (by rw [e6x, e5x, e4x, a3x, e2x, e1x]; exact hx0)
    (by rw [e6x, e5x, e4x, a3x, e2x, e1x]; exact hx1)
    (by rw [e6y, e5y, e4y, a3y, e2y, e1y]; exact hy0)
    (by rw [e6y, e5y, e4y, a3y, e2y, e1y]; exact hy1)
  have m7sp := moveStage_speed ops islands dt (steerStage cmds dt (snapStage cmds
      (accelStage dt (anchorStage cmds dt (idleStage cmds dt (sailStage cmds dt b))))))
    (by rw [e6s]; exact s5b.1)
  obtain ⟨e8x, e8y, e8h, e8s, e8l, e8t, e8i, e8a, e8p⟩ :=
    wakeStage_fixed dt (moveStage ops islands dt (steerStage cmds dt (snapStage cmds
      (accelStage dt (anchorStage cmds dt (idleStage cmds dt (sailStage cmds dt b)))))))
  have w8 := wakeStage_bounds dt (moveStage ops islands dt (steerStage cmds dt (snapStage cmds
      (accelStage dt (anchorStage cmds dt (idleStage cmds dt (sailStage cmds dt b))))))) hdt
    (by rw [e7w, e6w, e5w, e4w, a3w, e2w, e1w]; exact hw0) m7sp.1
  show BoatInv (wakeStage dt (moveStage ops islands dt (steerStage cmds dt (snapStage cmds
    (accelStage dt (anchorStage cmds dt (idleStage cmds dt (sailStage cmds dt b))))))))
  have hidle3 : 0 ≤ (anchorStage cmds dt (idleStage cmds dt (sailStage cmds dt b))).idleTime := by
    rcases a3idle with hc | hc
    · rw [hc]; exact i2
    · rw [hc]
  refine ⟨?_, ?_, ?_, ?_, ?_, ?_, ?_, ?_, ?_, ?_, ?_, ?_, ?_, ?_, ?_, ?_, ?_, ?_, ?_⟩
  · rw [e8x]; exact m7xy.1.1
  · rw [e8x]; exact m7xy.1.2
  · rw [e8y]; exact m7xy.2.1
  · rw [e8y]; exact m7xy.2.2
  · rw [e8l, e7l, e6l, e5l, e4l, a3l, e2l]; exact l1
  · rw [e8l, e7l, e6l, e5l, e4l, a3l, e2l]; exact l2
  · rw [e8t, e7t, e6t, e5t, e4t, a3t, e2t]; exact l3
  · rw [e8t, e7t, e6t, e5t, e4t, a3t, e2t]; exact l4
  · rw [e8s]; exact m7sp.1
  · rw [e8s]; exact le_trans m7sp.2 (by rw [e6s]; exact s5b.2)
  · rw [e8i, e7i, e6i, e5i, e4i]; exact hidle3
  · exact w8.1
  · exact w8.2
  · rw [e8p, e7p, e6p, e5p, e4p]; exact a3pr.1
  · rw [e8p, e7p, e6p, e5p, e4p]; exact a3pr.2
  · intro hst
    rw [e8a, e7a, e6a, e5a, e4a] at hst
    rw [e8i, e7i, e6i, e5i, e4i]
    rcases a3stow hst with hc | ⟨hc, hlt⟩
    · rw [hc]; norm_num
    · rw [hc]; exact hlt
  · intro hst
    rw [e8a, e7a, e6a, e5a, e4a] at hst
    rw [e8p, e7p, e6p, e5p, e4p]
    exact a3drop hst
  · intro hst
    rw [e8a, e7a, e6a, e5a, e4a] at hst
    rw [e8p, e7p, e6p, e5p, e4p]
    exact a3weigh hst
  · intro hst
    rw [e8a, e7a, e6a, e5a, e4a] at hst
    rw [e8p, e7p, e6p, e5p, e4p]
    exact a3anch hst

/-- The initial boat state satisfies the invariant. -/
theorem initial_inv : BoatInv createInitialBoatState := by
  unfold BoatInv
  with_unfolding_all decide

/-- Every reachable boat state satisfies the invariant. -/
theorem reachable_inv {b : BoatState} (h : Reachable b) : BoatInv b := by
  induction h with
  | init => exact initial_inv
  | step ops islands cmds dt b' h0 h1 hb ih => exact updateBoat_inv ops islands cmds dt b' h0 ih

theorem anchorStage_fixed (cmds : Commands) (dt : ℚ) (b : BoatState) :
    (anchorStage cmds dt b).x = b.x ∧ (anchorStage cmds dt b).y = b.y ∧
    (anchorStage cmds dt b).heading = b.heading ∧
    (anchorStage cmds dt b).sailLevel = b.sailLevel ∧
    (anchorStage cmds dt b).sailTarget = b.sailTarget ∧
    (anchorStage cmds dt b).wakeTimer = b.wakeTimer := by
  unfold anchorStage
  dsimp only
  by_cases hT : b.anchorState = AnchorState.stowed ∧ b.idleTime ≥ 3
  · rw [if_pos hT]
    dsimp only
    split_ifs <;> exact ⟨rfl, rfl, rfl, rfl, rfl, rfl⟩
  · rw [if_neg hT]
    cases b.anchorState <;> dsimp only <;>
      first
      | exact ⟨rfl, rfl, rfl, rfl, rfl, rfl⟩
      | (split_ifs <;> exact ⟨rfl, rfl, rfl, rfl, rfl, rfl⟩)

/-! ## C3: speed and sail bounds -/

/-- **C3.**  From any reachable boat state, one `updateBoat` step with
any commands and any `dt ∈ [0, 0.05]` keeps `sailLevel` in `[0, 1]` and
`speed` in `[0, MAX_FORWARD_SPEED]`. -/
theorem c3_speed_sail_bounds (ops : MathOps) (islands : List Island) (cmds : Commands)
    (dt : ℚ) (b : BoatState) (hb : Reachable b) (h0 : 0 ≤ dt) (h1 : dt ≤ 0.05) :
    0 ≤ (updateBoat ops islands cmds dt b).sailLevel ∧
      (updateBoat ops islands cmds dt b).sailLevel ≤ 1 ∧
      0 ≤ (updateBoat ops islands cmds dt b).speed ∧
      (updateBoat ops islands cmds dt b).speed ≤ MAX_FORWARD_SPEED := by
  have hinv := reachable_inv (Reachable.step ops islands cmds dt b h0 h1 hb)
  exact ⟨hinv.2.2.2.2.1, hinv.2.2.2.2.2.1, hinv.2.2.2.2.2.2.2.2.1,
    hinv.2.2.2.2.2.2.2.2.2.1⟩

/-- Witness for C3 at the initial state with no commands and `dt = 0`. -/
theorem c3_witness :
    0 ≤ (updateBoat ops0 [] cmdsNone 0 createInitialBoatState).sailLevel ∧
      (updateBoat ops0 [] cmdsNone 0 createInitialBoatState).sailLevel ≤ 1 ∧
      0 ≤ (updateBoat ops0 [] cmdsNone 0 createInitialBoatState).speed ∧
      (updateBoat ops0 [] cmdsNone 0 createInitialBoatState).speed ≤ MAX_FORWARD_SPEED :=
  c3_speed_sail_bounds ops0 [] cmdsNone 0 createInitialBoatState Reachable.init
    (by norm_num) (by norm_num)

/-! ## C6: collision rejection -/

/-- **C6.**  Whenever the collision detector fires on the proposed pose
of a step, the committed position equals the pre-step position (the
positional update is rejected wholesale) and the speed is capped at the
bounce ceiling 38. -/
theorem c6_collision_rejection (ops : MathOps) (islands : List Island) (cmds : Commands)
    (dt : ℚ) (b : BoatState)
    (h : detectCollision ops (proposedPose ops dt (midState cmds dt b)) islands = true) :
    (updateBoat ops islands cmds dt b).x = b.x ∧
      (updateBoat ops islands cmds dt b).y = b.y ∧
      (updateBoat ops islands cmds dt b).speed ≤ 38 := by
  have hup : updateBoat ops islands cmds dt b =
      wakeStage dt (moveStage ops islands dt (midState cmds dt b)) := rfl
  obtain ⟨mx, my, msp⟩ := moveStage_collision ops islands dt (midState cmds dt b) h
  obtain ⟨w8x, w8y, _, w8s, _⟩ :=
    wakeStage_fixed dt (moveStage ops islands dt (midState cmds dt b))
  have hmidx : (midState cmds dt b).x = b.x := by
    unfold midState
    rw [(steerStage_fixed _ _ _).1, (snapStage_fixed _ _).1, (accelStage_fixed _ _).1,
      (anchorStage_fixed _ _ _).1, (idleStage_fixed _ _ _).1, (sailStage_fixed _ _ _).1]
  have hmidy : (midState cmds dt b).y = b.y := by
    unfold midState
    rw [(steerStage_fixed _ _ _).2.1, (snapStage_fixed _ _).2.1, (accelStage_fixed _ _).2.1,
      (anchorStage_fixed _ _ _).2.1, (idleStage_fixed _ _ _).2.1, (sailStage_fixed _ _ _).2.1]
  refine ⟨?_, ?_, ?_⟩
  · rw [hup, w8x, mx, hmidx]
  · rw [hup, w8y, my, hmidy]
  · rw [hup, w8s, msp]
    exact min_le_right _ _

/-- Witness for C6: the boat starts on top of `cexIsland`, so the
zero-dt proposed pose collides and the position stays put. -/
theorem c6_witness :
    (updateBoat ops0 [cexIsland] cmdsNone 0 createInitialBoatState).x =
        createInitialBoatState.x ∧
      (updateBoat ops0 [cexIsland] cmdsNone 0 createInitialBoatState).y =
        createInitialBoatState.y ∧
      (updateBoat ops0 [cexIsland] cmdsNone 0 createInitialBoatState).speed ≤ 38 :=
  c6_collision_rejection ops0 [cexIsland] cmdsNone 0 createInitialBoatState
    (by with_unfolding_all decide)

/-! ## C7: the anchored state -/

/-- **C7 (amended).**  While anchored the step pins speed to exactly
zero, and a `forward`, `left` or `right` command makes the anchor state
move to `weighing` in that same step.  A `backward` command does not:
the source's `attemptingToMove` omits it (see the counterexample). -/
theorem c7_anchored_pins_speed (ops : MathOps) (islands : List Island) (cmds : Commands)
    (dt : ℚ) (b : BoatState) (h : b.anchorState = .anchored) :
    (updateBoat ops islands cmds dt b).speed = 0 ∧
      (cmds.forward = true ∨ cmds.left = true ∨ cmds.right = true →
        (updateBoat ops islands cmds dt b).anchorState = .weighing) := by
  have hA1 : (sailStage cmds dt b).anchorState = .anchored := by
    rw [(sailStage_fixed cmds dt b).2.2.2.2.2.1]
    exact h
  have hA2 : (idleStage cmds dt (sailStage cmds dt b)).anchorState = .anchored := by
    rw [(idleStage_fixed cmds dt (sailStage cmds dt b)).2.2.2.2.2.2.1]
    exact hA1
  obtain ⟨hsp3, hweigh3, hanch3⟩ :=
    anchorStage_anchored cmds dt (idleStage cmds dt (sailStage cmds dt b)) hA2
  have hblk3 : anchorBlocks
      (anchorStage cmds dt (idleStage cmds dt (sailStage cmds dt b))).anchorState = true := by
    cases hAtt : attemptingToMove cmds with
    | true => rw [(hweigh3 hAtt).1]; rfl
    | false => rw [hanch3 hAtt]; rfl
  have hs4 := accelStage_speed_zero dt
    (anchorStage cmds dt (idleStage cmds dt (sailStage cmds dt b))) hsp3 hblk3
  have hs5 := snapStage_speed_zero cmds
    (accelStage dt (anchorStage cmds dt (idleStage cmds dt (sailStage cmds dt b)))) hs4
  have hs6 : (steerStage cmds dt (snapStage cmds (accelStage dt (anchorStage cmds dt
      (idleStage cmds dt (sailStage cmds dt b)))))).speed = 0 := by
    rw [(steerStage_fixed _ _ _).2.2.1]
    exact hs5
  have hs7 := moveStage_speed_zero ops islands dt _ hs6
  constructor
  · show (wakeStage dt (moveStage ops islands dt (steerStage cmds dt (snapStage cmds
      (accelStage dt (anchorStage cmds dt (idleStage cmds dt (sailStage cmds dt b)))))))).speed = 0
    rw [(wakeStage_fixed _ _).2.2.2.1]
    exact hs7
  · intro hcmd
    have hAtt : attemptingToMove cmds = true := by
      unfold attemptingToMove
      rcases hcmd with hc | hc | hc <;> simp [hc]
    show (wakeStage dt (moveStage ops islands dt (steerStage cmds dt (snapStage cmds
      (accelStage dt (anchorStage cmds dt (idleStage cmds dt
        (sailStage cmds dt b)))))))).anchorState = .weighing
    rw [(wakeStage_fixed _ _).2.2.2.2.2.2.2.1, (moveStage_fixed _ _ _ _).2.2.2.2.1,
      (steerStage_fixed _ _ _).2.2.2.2.2.2.1, (snapStage_fixed _ _).2.2.2.2.2.2.1,
      (accelStage_fixed _ _).2.2.2.2.2.2.1]
    exact (hweigh3 hAtt).1

/-- Witness for the amended C7: anchored boat plus `forward`. -/
theorem c7_witness :
    (updateBoat ops0 [] cmdsFwd (1/100) anchoredBoat).speed = 0 ∧
      (cmdsFwd.forward = true ∨ cmdsFwd.left = true ∨ cmdsFwd.right = true →
        (updateBoat ops0 [] cmdsFwd (1/100) anchoredBoat).anchorState = .weighing) :=
  c7_anchored_pins_speed ops0 [] cmdsFwd (1/100) anchoredBoat rfl

/-- **C7 (counterexample).**  The claim includes `backward` among the
wake-up commands, but the source's `attemptingToMove` is
`forward || left || right`: a backward command alone leaves the boat
anchored rather than weighing. -/
theorem c7_counterexample :
    anchoredBoat.anchorState = .anchored ∧ cmdsBack.backward = true ∧
      (updateBoat ops0 [] cmdsBack (1/100) anchoredBoat).anchorState ≠ .weighing ∧
      (updateBoat ops0 [] cmdsBack (1/100) anchoredBoat).anchorState = .anchored :=
  ⟨rfl, rfl, by with_unfolding_all decide, by with_unfolding_all decide⟩

/-! ## C10: the zero-dt step -/

/-- **C10 (amended).**  A `dt = 0` step from a reachable state leaves
position, heading, both sail values and the wake timer untouched, but it
is not the identity: `idleTime` is either kept or reset to 0 (holding a
movement command clears accumulated idle time even with no elapsed
time), speed is kept, snapped to 0, or capped at the collision bounce
value 38, and an anchored boat ordered to move transitions to
`weighing` with progress 0. -/
theorem c10_zero_dt_effects (ops : MathOps) (islands : List Island) (cmds : Commands)
    (b : BoatState) (hb : Reachable b) :
    (updateBoat ops islands cmds 0 b).x = b.x ∧
    (updateBoat ops islands cmds 0 b).y = b.y ∧
    (updateBoat ops islands cmds 0 b).heading = b.heading ∧
    (updateBoat ops islands cmds 0 b).sailLevel = b.sailLevel ∧
    (updateBoat ops islands cmds 0 b).sailTarget = b.sailTarget ∧
    (updateBoat ops islands cmds 0 b).wakeTimer = b.wakeTimer ∧
    ((updateBoat ops islands cmds 0 b).idleTime = b.idleTime ∨
      (updateBoat ops islands cmds 0 b).idleTime = 0) ∧
    ((updateBoat ops islands cmds 0 b).speed = b.speed ∨
      (updateBoat ops islands cmds 0 b).speed = 0 ∨
      (updateBoat ops islands cmds 0 b).speed = 38) ∧
    (((updateBoat ops islands cmds 0 b).anchorState = b.anchorState ∧
        (updateBoat ops islands cmds 0 b).anchorProgress = b.anchorProgress) ∨
      (b.anchorState = .anchored ∧
        (updateBoat ops islands cmds 0 b).anchorState = .weighing ∧
        (updateBoat ops islands cmds 0 b).anchorProgress = 0)) := by
  obtain ⟨hx0, hx1, hy0, hy1, hl0, hl1, ht0, ht1, hs0, hs1, hi0, hw0, hw1, hp0, hp1,
    hstow, hdrop, hweigh, hanch⟩ := reachable_inv hb
  have hsail := sailStage_dt_zero cmds b hl0 hl1 ht0 ht1
  unfold updateBoat
  rw [hsail, accelStage_dt_zero, steerStage_dt_zero]
  obtain ⟨e2x, e2y, e2h, e2s, e2l, e2t, e2a, e2p, e2w⟩ := idleStage_fixed cmds 0 b
  have i2cases : (idleStage cmds 0 b).idleTime = b.idleTime ∨
      (idleStage cmds 0 b).idleTime = 0 := by
    rcases idleStage_idle_cases cmds 0 b with hc | hc | hc
    · left; rw [hc, add_zero]
    · right; exact hc
    · left; exact hc
  obtain ⟨a3i, a3sp, a3pair⟩ := anchorStage_dt_zero cmds (idleStage cmds 0 b)
    (by rw [e2s]; exact hs0)
    (by intro h
        rcases i2cases with hc | hc
        · rw [hc]; exact hstow (by rw [← e2a]; exact h)
        · rw [hc]; norm_num)
    (by intro h; rw [e2p]; exact hdrop (by rw [← e2a]; exact h))
    (by intro h; rw [e2p]; exact hweigh (by rw [← e2a]; exact h))
    (by intro h; rw [e2p]; exact hanch (by rw [← e2a]; exact h))
  obtain ⟨anX, anY, anH, anL, anT, anW⟩ := anchorStage_fixed cmds 0 (idleStage cmds 0 b)
  obtain ⟨e5x, e5y, e5h, e5l, e5t, e5i, e5a, e5p, e5w⟩ :=
    snapStage_fixed cmds (anchorStage cmds 0 (idleStage cmds 0 b))
  have s5cases := snapStage_speed_cases cmds (anchorStage cmds 0 (idleStage cmds 0 b))
  obtain ⟨e7h, e7l, e7t, e7i, e7a, e7p, e7w⟩ := moveStage_fixed ops islands 0
    (snapStage cmds (anchorStage cmds 0 (idleStage cmds 0 b)))
  have m7xy := moveStage_dt_zero_xy ops islands
    (snapStage cmds (anchorStage cmds 0 (idleStage cmds 0 b)))
    (by rw [e5x, anX, e2x]; exact hx0) (by rw [e5x, anX, e2x]; exact hx1)
    (by rw [e5y, anY, e2y]; exact hy0) (by rw [e5y, anY, e2y]; exact hy1)
  have m7sp := moveStage_speed_cases ops islands 0
    (snapStage cmds (anchorStage cmds 0 (idleStage cmds 0 b)))
  have hw7 : (moveStage ops islands 0 (snapStage cmds (anchorStage cmds 0
      (idleStage cmds 0 b)))).wakeTimer = b.wakeTimer := by
    rw [e7w, e5w, anW, e2w]
  rw [wakeStage_dt_zero (moveStage ops islands 0 (snapStage cmds (anchorStage cmds 0
    (idleStage cmds 0 b)))) (by rw [hw7]; exact hw0) (by rw [hw7]; exact hw1)]
  refine ⟨?_, ?_, ?_, ?_, ?_, ?_, ?_, ?_, ?_⟩
  · rw [m7xy.1, e5x, anX, e2x]
  · rw [m7xy.2, e5y, anY, e2y]
  · rw [e7h, e5h, anH, e2h]
  · rw [e7l, e5l, anL, e2l]
  · rw [e7t, e5t, anT, e2t]
  · exact hw7
  · rw [e7i, e5i, a3i]
    exact i2cases
  · rcases m7sp with h7 | h7
    · rw [h7]
      rcases s5cases with h5 | h5
      · rw [h5]
        rcases a3sp with h3 | h3
        · rw [h3, e2s]; left; rfl
        · rw [h3]; right; left; rfl
      · rw [h5]; right; left; rfl
    · rw [h7]
      rcases s5cases with h5 | h5
      · rw [h5]
        rcases a3sp with h3 | h3
        · rw [h3, e2s]
          rcases le_total b.speed 38 with hle | hge
          · rw [min_eq_left hle]; left; rfl
          · rw [min_eq_right hge]; right; right; rfl
        · rw [h3]; right; left; norm_num
      · rw [h5]; right; left; norm_num
  · rcases a3pair with ⟨ha, hp⟩ | ⟨hb2, ha, hp⟩
    · left
      exact ⟨by rw [e7a, e5a, ha, e2a], by rw [e7p, e5p, hp, e2p]⟩
    · right
      exact ⟨by rw [← e2a]; exact hb2, by rw [e7a, e5a]; exact ha,
        by rw [e7p, e5p]; exact hp⟩

/-- Witness for the amended C10 at the initial state. -/
theorem c10_witness :
    (updateBoat ops0 [] cmdsNone 0 createInitialBoatState).x = createInitialBoatState.x ∧
    (updateBoat ops0 [] cmdsNone 0 createInitialBoatState).y = createInitialBoatState.y ∧
    (updateBoat ops0 [] cmdsNone 0 createInitialBoatState).heading =
      createInitialBoatState.heading ∧
    (updateBoat ops0 [] cmdsNone 0 createInitialBoatState).sailLevel =
      createInitialBoatState.sailLevel ∧
    (updateBoat ops0 [] cmdsNone 0 createInitialBoatState).sailTarget =
      createInitialBoatState.sailTarget ∧
    (updateBoat ops0 [] cmdsNone 0 createInitialBoatState).wakeTimer =
      createInitialBoatState.wakeTimer ∧
    ((updateBoat ops0 [] cmdsNone 0 createInitialBoatState).idleTime =
        createInitialBoatState.idleTime ∨
      (updateBoat ops0 [] cmdsNone 0 createInitialBoatState).idleTime = 0) ∧
    ((updateBoat ops0 [] cmdsNone 0 createInitialBoatState).speed =
        createInitialBoatState.speed ∨
      (updateBoat ops0 [] cmdsNone 0 createInitialBoatState).speed = 0 ∨
      (updateBoat ops0 [] cmdsNone 0 createInitialBoatState).speed = 38) ∧
    (((updateBoat ops0 [] cmdsNone 0 createInitialBoatState).anchorState =
          createInitialBoatState.anchorState ∧
        (updateBoat ops0 [] cmdsNone 0 createInitialBoatState).anchorProgress =
          createInitialBoatState.anchorProgress) ∨
      (createInitialBoatState.anchorState = .anchored ∧
        (updateBoat ops0 [] cmdsNone 0 createInitialBoatState).anchorState = .weighing ∧
        (updateBoat ops0 [] cmdsNone 0 createInitialBoatState).anchorProgress = 0)) :=
  c10_zero_dt_effects ops0 [] cmdsNone createInitialBoatState Reachable.init

/-- **C10 (counterexample).**  The zero-dt step is not the identity on
reachable states: `c10State` is one idle frame after the initial state
and has `idleTime = 1/20`, yet a `dt = 0` step holding `forward`
resets `idleTime` to 0, so the returned state differs from the input. -/
theorem c10_counterexample :
    Reachable c10State ∧ c10State.idleTime ≠ 0 ∧
      (updateBoat ops0 [] cmdsFwd 0 c10State).idleTime = 0 ∧
      updateBoat ops0 [] cmdsFwd 0 c10State ≠ c10State := by
  refine ⟨?_, ?_, ?_, ?_⟩
  · exact Reachable.step ops0 [] cmdsNone (1/20) createInitialBoatState
      (by norm_num) (by norm_num) Reachable.init
  · with_unfolding_all decide
  · with_unfolding_all decide
  · intro h
    have h2 : (updateBoat ops0 [] cmdsFwd 0 c10State).idleTime = c10State.idleTime := by
      rw [h]
    revert h2
    with_unfolding_all decide

end SailTrade
